import Mathlib

/-!
# Workflow controller of the AoI segmentation front end (`static/js/map.js`)

The module-level variables and the DOM elements that `map.js` reads and writes are
the fields of one record, `Ctrl`.  Every handler is a function on that record.  An
`async` handler is split at its `await`: the part before it returns the request it
sends, and the part after it is a continuation that takes the outcome of `fetch`.

Conventions of the embedding.
* Numbers of coordinates are only ever compared with `===`; integers stand for them.
* A JavaScript string whose length is measured or that is cut is the list of its UTF-16
  code units (`JsString`), so `.length` and `.substring` count what JavaScript counts;
  a string literal stands for its code units.  Names that are only compared with
  literals (class names, modes, actions, geometry types, input values) stay `String`.
* `JSON.parse(JSON.stringify(x))` is a deep copy, the identity on immutable values.
* `JSON.parse`, `parseFloat` and the printing of a number are JavaScript built-ins; they
  are parameters (`Builtins`).  A number is `NaN`, an infinity or a finite rational
  (`JsNum`); `error` stands for a thrown `SyntaxError`.
* `console.log` calls, `map.flyTo` and paint options are presentation and are left out.
* Calls into the map and the draw tool (`addSource`, `addLayer`, `removeLayer`,
  `deleteAll`, `set`, `flyTo`) do what their name says and do not throw; a `TypeError`
  raised by the handlers themselves (a property read on `null` or on a missing first
  feature) is modelled, see `Outcome`.
* `isAoiClosed` is only ever tested for truthiness; it is kept as that boolean.
* `uiState` is a ghost field: the argument of the last call of `updateUIState`.  All call
  sites pass one of seven literals, so the `default` branch of its `switch` is not reached.
-/

namespace AoiSegmentation

/-! ## Data model -/

/-- A position `[lon, lat]` of a line. -/
structure Coord where
  lon : Int
  lat : Int
deriving DecidableEq, Repr

/-- GeoJSON geometry: its `type` string and its `coordinates` array. -/
structure Geometry where
  type : String
  coordinates : List Coord
deriving DecidableEq, Repr

/-- GeoJSON feature; `properties` is `none` when it is `null`. -/
structure Feature where
  id : String
  properties : Option (List (String × String))
  geometry : Geometry
deriving DecidableEq, Repr

/-- GeoJSON `FeatureCollection`. -/
structure FeatureCollection where
  features : List Feature
deriving DecidableEq, Repr

/-- A JavaScript string: the list of its UTF-16 code units. -/
abbrev JsString := List Nat

/-- UTF-16 code units of one character: itself, or a surrogate pair. -/
def utf16Char (ch : Char) : List Nat :=
  if ch.toNat < 65536 then [ch.toNat]
  else [55296 + (ch.toNat - 65536) / 1024, 56320 + (ch.toNat - 65536) % 1024]

/-- The JavaScript string that a string literal denotes. -/
def utf16 (s : String) : JsString :=
  (s.toList.map utf16Char).flatten

instance : Coe String JsString := ⟨utf16⟩

/-- A JavaScript number: `NaN`, an infinity, or a finite value. -/
inductive JsNum where
  | nan
  | posInf
  | negInf
  | fin (q : ℚ)
deriving DecidableEq, Repr

/-- The test `isNaN(x)`. -/
def JsNum.isNaN : JsNum → Bool
  | .nan => true
  | _ => false

/-- The comparison `x <= 0`; every comparison with `NaN` is false. -/
def JsNum.leZero : JsNum → Bool
  | .fin q => decide (q ≤ 0)
  | .negInf => true
  | _ => false

/-- The comparison `x < 0`. -/
def JsNum.ltZero : JsNum → Bool
  | .fin q => decide (q < 0)
  | .negInf => true
  | _ => false

/-- Truthiness of a number: neither zero nor `NaN`. -/
def JsNum.truthy : JsNum → Bool
  | .nan => false
  | .fin q => q != 0
  | _ => true

/-- A number greater than 0. -/
def JsNum.Positive : JsNum → Prop
  | .fin q => 0 < q
  | .posInf => True
  | _ => False

/-- A number greater than or equal to 0. -/
def JsNum.NonNegative : JsNum → Prop
  | .fin q => 0 ≤ q
  | .posInf => True
  | _ => False

/-- A JavaScript value found in a field of a parsed body.  A nested object or array is
kept as its JSON text, its `String(...)` conversion, and the outcome of the one test the
code makes on it, `value.length > 500`. -/
inductive JsVal where
  | undefined
  | null
  | bool (b : Bool)
  | num (x : JsNum)
  | str (s : JsString)
  | object (json : JsString) (asString : JsString) (lengthOver500 : Bool)
deriving DecidableEq, Repr

/-- JavaScript truthiness. -/
def JsVal.truthy : JsVal → Bool
  | .undefined => false
  | .null => false
  | .bool b => b
  | .num x => x.truthy
  | .str s => !s.isEmpty
  | .object _ _ _ => true

/-- The value `JSON.parse` returns: a top-level object with its fields, or any other value. -/
inductive Parsed where
  | value (v : JsVal)
  | obj (fields : List (String × JsVal))
deriving DecidableEq, Repr

/-- Property read `x.name`; `none` is the `TypeError` of reading a property of `null`. -/
def Parsed.get (p : Parsed) (name : String) : Option JsVal :=
  match p with
  | .value .null => none
  | .value .undefined => none
  | .value _ => some .undefined
  | .obj fields => some ((fields.lookup name).getD .undefined)

/-- Truthiness of a parsed body. -/
def Parsed.truthy : Parsed → Bool
  | .value v => v.truthy
  | .obj _ => true

/-- The JavaScript built-ins the handlers call: `JSON.parse`, `parseFloat`, the string
conversion of a number, and the message of the `TypeError` raised on a property name. -/
structure Builtins where
  JSON_parse : JsString → Except JsString Parsed
  parseFloat : String → JsNum
  numberToString : JsNum → JsString
  typeErrorMessage : String → JsString

/-- String conversion of a value inside a template literal. -/
def JsVal.toStr (b : Builtins) : JsVal → JsString
  | .undefined => "undefined"
  | .null => "null"
  | .bool v => if v then "true" else "false"
  | .num x => b.numberToString x
  | .str s => s
  | .object _ s _ => s

/-- An HTTP response as the handlers read it: status line, `content-type` header, body text. -/
structure Response where
  status : Nat
  statusText : JsString
  contentType : Option JsString
  body : JsString
deriving DecidableEq, Repr

/-- The `response.ok` flag: a status in the range 200 to 299. -/
def Response.ok (r : Response) : Bool :=
  decide (200 ≤ r.status) && decide (r.status ≤ 299)

/-- Outcome of `await fetch(...)` followed by `await response.text()`. -/
inductive FetchResult where
  | rejected (message : JsString)
  | resolved (response : Response)
deriving DecidableEq, Repr

/-- The seven string literals passed to `updateUIState`. -/
inductive UIState where
  | initial
  | draw_complete
  | finished_open
  | finished_closed
  | processing
  | segmenting
  | segmented
deriving DecidableEq, Repr

/-- The value of `style.display`. -/
inductive Display where
  | none
  | block
deriving DecidableEq, Repr

/-- Data handed to a map source. -/
inductive GeoJsonData where
  | aoi (fc : FeatureCollection)
  | raw (v : JsVal)
deriving DecidableEq, Repr

/-- Truthiness of `geoJsonData`. -/
def GeoJsonData.truthy : GeoJsonData → Bool
  | .aoi _ => true
  | .raw v => v.truthy

/-- The two overlays: (source id, layer id) pairs of the map. -/
inductive Overlay where
  | original
  | segmented
deriving DecidableEq, Repr

/-- The Mapbox map as far as the controller touches it: for each overlay its source
(with data) and its layer (with visibility), when present. -/
structure MapState where
  styleLoaded : Bool
  originalSource : Option GeoJsonData
  originalLayer : Option Bool
  segmentedSource : Option GeoJsonData
  segmentedLayer : Option Bool
deriving DecidableEq, Repr

/-- Content of `messagesDiv`: the class and the text of its paragraph. -/
structure Message where
  type : String
  text : JsString
deriving DecidableEq, Repr

/-- Content of `statsDiv`. -/
inductive StatsDiv where
  | notCalculated
  | table (stats : Parsed)
deriving DecidableEq, Repr

/-- Module-level variables and DOM state of `map.js`. -/
structure Ctrl where
  currentAoiGeoJson : Option FeatureCollection
  segmentedGeoJson : JsVal
  draw : Option (List Feature)
  isAoiClosed : Bool
  featureExistsOnMap : Bool
  map : Option MapState
  finishBtnDisabled : Bool
  closeLoopBtnDisabled : Bool
  segmentBtnDisabled : Bool
  restartBtnDisabled : Bool
  closeLoopBtnDisplay : Display
  stepDrawDiv : Display
  stepFinishDiv : Display
  stepSegmentDiv : Display
  gridAreaInput : String
  bufferKmInput : String
  statsDiv : StatsDiv
  messagesDiv : Message
  downloadLinkDiv : JsString
  showOriginalChk : Bool
  showSegmentedChk : Bool
  uiState : UIState
deriving DecidableEq, Repr

/-- A call that either ran to its end or threw; both carry the state reached. -/
inductive Outcome where
  | done (c : Ctrl)
  | threw (message : JsString) (c : Ctrl)
deriving DecidableEq, Repr

/-- State left behind by a call whose exception nobody catches. -/
def Outcome.ctrl : Outcome → Ctrl
  | .done c => c
  | .threw _ c => c

/-! ## Helper functions -/

/-- Source `displayMessage(text, type)` at a string `text`. -/
def displayMessage (text : JsString) (type : String) (c : Ctrl) : Ctrl :=
  let safeText := if text.length > 500 then text.take 500 ++ "..." else text
  { c with messagesDiv := { type := type, text := safeText } }

/-- Source `displayMessage(text, type)` at any value `text`: on `null` and `undefined`
reading `length` throws; a number or boolean has no `length` and is shown as it is; an
array or object whose `length` is over 500 has no `substring` to call, which throws. -/
def displayMessageValue (b : Builtins) (text : JsVal) (type : String) (c : Ctrl) : Outcome :=
  match text with
  | .str s => .done (displayMessage s type c)
  | .undefined => .threw (b.typeErrorMessage "length") c
  | .null => .threw (b.typeErrorMessage "length") c
  | .bool v => .done { c with messagesDiv := { type := type, text := (JsVal.bool v).toStr b } }
  | .num x => .done { c with messagesDiv := { type := type, text := (JsVal.num x).toStr b } }
  | .object _ _ true => .threw (b.typeErrorMessage "substring") c
  | .object _ asString false =>
    .done { c with messagesDiv := { type := type, text := asString } }

/-- Source `displayStats(stats)`: replaces the content of `statsDiv`. -/
def displayStats (stats : Parsed) (c : Ctrl) : Ctrl :=
  { c with statsDiv := .table stats }

/-- The four `if (map.getLayer(..)) map.removeLayer(..)` / `removeSource` lines. -/
def removeAllOverlays (m : MapState) : MapState :=
  { m with originalLayer := none, originalSource := none,
           segmentedLayer := none, segmentedSource := none }

/-- The two lines removing the segmented grid layer and source. -/
def removeSegmentedOverlay (m : MapState) : MapState :=
  { m with segmentedLayer := none, segmentedSource := none }

/-- Source `clearMapLayersAndData()`. -/
def clearMapLayersAndData (c : Ctrl) : Ctrl :=
  let c := { c with map := c.map.map removeAllOverlays }
  let c := { c with currentAoiGeoJson := none, segmentedGeoJson := .null,
                    isAoiClosed := false, featureExistsOnMap := false }
  let c := { c with downloadLinkDiv := "", statsDiv := .notCalculated,
                    showOriginalChk := true, showSegmentedChk := true,
                    gridAreaInput := "20", bufferKmInput := "0" }
  match c.draw with
  | some _ => { c with draw := some [] }
  | none => c

/-- Source `addOrUpdateGeoJsonLayer(sourceId, layerId, geoJsonData, _, _, isVisible)`. -/
def addOrUpdateGeoJsonLayer (o : Overlay) (geoJsonData : GeoJsonData) (isVisible : Bool)
    (c : Ctrl) : Ctrl :=
  match c.map with
  | none => c
  | some m =>
    if !geoJsonData.truthy then c
    else if !m.styleLoaded then c
    else
      match o with
      | .original =>
        { c with map := some { m with originalSource := some geoJsonData,
                                      originalLayer := some isVisible } }
      | .segmented =>
        { c with map := some { m with segmentedSource := some geoJsonData,
                                      segmentedLayer := some isVisible } }

/-- The expression `fc.features[0].geometry.coordinates.length`; `none` is the
`TypeError` raised when `features` is empty. -/
def coordinatesLength (fc : FeatureCollection) : Option Nat :=
  fc.features.head?.map (fun f => f.geometry.coordinates.length)

/-! ## UI state management -/

/-- Source `updateUIState(state)`. -/
def updateUIState (b : Builtins) (state : UIState) (c : Ctrl) : Outcome :=
  let c := { c with uiState := state }
  let c := { c with stepDrawDiv := .none, stepFinishDiv := .none, stepSegmentDiv := .none }
  let c := { c with finishBtnDisabled := true, closeLoopBtnDisabled := true,
                    segmentBtnDisabled := true, restartBtnDisabled := true }
  let c := { c with restartBtnDisabled :=
                      if c.featureExistsOnMap || c.currentAoiGeoJson.isSome then false
                      else c.restartBtnDisabled }
  match state with
  | .initial =>
    let c := { c with stepDrawDiv := .block }
    .done (clearMapLayersAndData c)
  | .draw_complete =>
    let c := { c with stepDrawDiv := .block, finishBtnDisabled := false,
                      restartBtnDisabled := false }
    .done (displayMessage
      "Drawing exists on map. Click 'Finish Drawing & Calculate Stats' below or edit the drawing."
      "info" c)
  | .finished_open =>
    let c := { c with stepFinishDiv := .block, closeLoopBtnDisplay := .block }
    match c.currentAoiGeoJson with
    | none =>
      let c := { c with closeLoopBtnDisabled := true, restartBtnDisabled := false }
      .done (displayMessage "AoI processed (Open Loop). Close the loop or restart." "info" c)
    | some fc =>
      match coordinatesLength fc with
      | none => .threw (b.typeErrorMessage "geometry") c
      | some n =>
        let c := { c with closeLoopBtnDisabled := !(decide (n ≥ 3)),
                          restartBtnDisabled := false }
        .done (displayMessage "AoI processed (Open Loop). Close the loop or restart." "info" c)
  | .finished_closed =>
    let c := { c with stepFinishDiv := .block, closeLoopBtnDisplay := .none,
                      stepSegmentDiv := .block, segmentBtnDisabled := false,
                      restartBtnDisabled := false }
    match c.currentAoiGeoJson with
    | none =>
      .done (displayMessage
        "AoI processed (Closed Loop). Configure and run segmentation, or restart." "success" c)
    | some fc =>
      match coordinatesLength fc with
      | none => .threw (b.typeErrorMessage "geometry") c
      | some n =>
        if n < 4 then
          let c := displayMessage
            "AoI processed (Closed Loop), but needs >= 4 points (first=last) for valid area/segmentation. Restart if needed."
            "error" c
          .done { c with segmentBtnDisabled := true }
        else
          .done (displayMessage
            "AoI processed (Closed Loop). Configure and run segmentation, or restart."
            "success" c)
  | .processing =>
    let c := if c.stepDrawDiv = .block
             then { c with stepDrawDiv := .block, finishBtnDisabled := true }
             else { c with stepFinishDiv := .block, closeLoopBtnDisabled := true }
    let c := { c with restartBtnDisabled := true }
    .done (displayMessage "Processing AoI..." "info" c)
  | .segmenting =>
    let c := { c with stepFinishDiv := .block, stepSegmentDiv := .block,
                      segmentBtnDisabled := true, restartBtnDisabled := true }
    .done (displayMessage "Segmenting AoI..." "info" c)
  | .segmented =>
    .done { c with stepFinishDiv := .block, stepSegmentDiv := .block,
                   segmentBtnDisabled := false, restartBtnDisabled := false }

/-- Sequencing inside one handler: a throw skips the rest. -/
def Outcome.andThen (o : Outcome) (f : Ctrl → Outcome) : Outcome :=
  match o with
  | .done c => f c
  | .threw m c => .threw m c

/-- The test `s.includes(t)`. -/
def includes (s t : JsString) : Bool :=
  s.tails.any (fun u => t.isPrefixOf u)

/-- The expression `error.message || 'Unknown fetch error'`. -/
def messageOrUnknown (message : JsString) : JsString :=
  if !message.isEmpty then message else "Unknown fetch error"

/-! ## Draw event handlers (registered in the map `load` callback) -/

/-- Handler of `draw.create`; `features` is `e.features`. -/
def onDrawCreate (b : Builtins) (features : List Feature) (c : Ctrl) : Ctrl :=
  if features.length > 0 then
    let c := { c with featureExistsOnMap := true, currentAoiGeoJson := none,
                      segmentedGeoJson := .null, isAoiClosed := false }
    let c := { c with map := c.map.map removeAllOverlays }
    let c := { c with downloadLinkDiv := "", statsDiv := .notCalculated }
    (updateUIState b .draw_complete c).ctrl
  else
    let c := { c with featureExistsOnMap := false }
    (updateUIState b .initial c).ctrl

/-- Handler of `draw.delete`. -/
def onDrawDelete (b : Builtins) (c : Ctrl) : Ctrl :=
  let c := { c with featureExistsOnMap := false, currentAoiGeoJson := none,
                    segmentedGeoJson := .null, isAoiClosed := false }
  let c := { c with map := c.map.map removeAllOverlays }
  let c := { c with downloadLinkDiv := "", statsDiv := .notCalculated }
  ((updateUIState b .initial c).andThen fun c =>
    .done (displayMessage "Drawing deleted. Draw a new AoI." "info" c)).ctrl

/-- Handler of `draw.update`; `features` is `e.features`, `action` is `e.action`. -/
def onDrawUpdate (b : Builtins) (features : List Feature) (action : String) (c : Ctrl) : Ctrl :=
  if features.length > 0 && (action == "change_coordinates" || action == "move") then
    let c := { c with featureExistsOnMap := true, currentAoiGeoJson := none,
                      isAoiClosed := false, segmentedGeoJson := .null }
    let c := { c with map := c.map.map removeAllOverlays }
    let c := { c with downloadLinkDiv := "", statsDiv := .notCalculated }
    ((updateUIState b .draw_complete c).andThen fun c =>
      .done (displayMessage
        "Drawing updated. Click 'Finish Drawing & Calculate Stats' again." "info" c)).ctrl
  else if features.length = 0 then
    let c := { c with featureExistsOnMap := false }
    (updateUIState b .initial c).ctrl
  else c

/-- Handler of `draw.modechange`; `mode` is `e.mode`. -/
def onDrawModechange (b : Builtins) (mode : String) (c : Ctrl) : Ctrl :=
  match c.draw with
  | none => c
  | some data =>
    if data.length > 0 then
      let c := { c with featureExistsOnMap := true }
      if !c.currentAoiGeoJson.isSome && (mode == "simple_select" || mode == "direct_select") then
        (updateUIState b .draw_complete c).ctrl
      else c
    else
      let c := { c with featureExistsOnMap := false }
      if mode == "draw_line_string" && !c.currentAoiGeoJson.isSome then
        (updateUIState b .initial c).ctrl
      else c

/-- Handler of `draw.selectionchange`; `features` is `e.features`. -/
def onDrawSelectionchange (b : Builtins) (features : List Feature) (c : Ctrl) : Ctrl :=
  if features.length > 0 then
    let c := { c with featureExistsOnMap := true }
    if !c.currentAoiGeoJson.isSome then (updateUIState b .draw_complete c).ctrl else c
  else
    match c.draw with
    | none => c
    | some data =>
      if data.length > 0 then
        let c := { c with featureExistsOnMap := true }
        if !c.currentAoiGeoJson.isSome then (updateUIState b .draw_complete c).ctrl else c
      else
        { c with featureExistsOnMap := false }

/-- The body of the map `load` callback once the draw control has been created: the
feature store starts empty and the UI is put in `initial`. -/
def onMapLoad (b : Builtins) (c : Ctrl) : Ctrl :=
  let c := { c with draw := some [] }
  (updateUIState b .initial c).ctrl

/-! ## Requests -/

/-- A request in flight: which handler awaits it, with the locals its continuation keeps. -/
inductive Pending where
  | finish (aoiToProcess : FeatureCollection)
  | closeLoop (aoiToClose : FeatureCollection)
  | segment (aoi : FeatureCollection) (grid_area_sqkm : JsNum) (buffer_km : JsNum)
deriving DecidableEq

/-- The two endpoints. -/
inductive Endpoint where
  | process_aoi
  | segment_aoi
deriving DecidableEq, Repr

/-- Endpoint a pending request was posted to. -/
def Pending.endpoint : Pending → Endpoint
  | .finish _ => .process_aoi
  | .closeLoop _ => .process_aoi
  | .segment _ _ _ => .segment_aoi

/-! ## Finish button -/

/-- Error text built in the `!response.ok` branch of the finish handler. -/
def finishErrorMsg (b : Builtins) (response : Response) : JsString :=
  let responseBody := response.body
  let errorMsg : JsString :=
    "Server error: " ++ utf16 (toString response.status) ++ " " ++ response.statusText
  let isJson := match response.contentType with
    | none => false
    | some contentType => !contentType.isEmpty && includes contentType "application/json"
  if isJson then
    match b.JSON_parse responseBody with
    | .ok errorData =>
      let error := (errorData.get "error").getD .undefined
      if errorData.truthy && error.truthy then "Server error: " ++ error.toStr b else errorMsg
    | .error _ =>
      if !responseBody.isEmpty then
        errorMsg ++ " - Raw Response: " ++ responseBody.take 150 ++ "..."
      else errorMsg
  else if !responseBody.isEmpty then errorMsg ++ " - Response: " ++ responseBody.take 150 ++ "..."
  else errorMsg

/-- The finish click handler up to `await fetch`: the new state, and the snapshot
`aoiToProcess` when a request is sent. -/
def finishClick (b : Builtins) (c : Ctrl) : Ctrl × Option Pending :=
  match c.draw with
  | none => (displayMessage "Error: Drawing tool not available." "error" c, none)
  | some data =>
    match data with
    | [] =>
      let c := displayMessage "No valid drawing (LineString >= 2 points) found." "error" c
      ((updateUIState b .initial c).ctrl, none)
    | featureToProcess :: _ =>
      if featureToProcess.geometry.type != "LineString"
          || featureToProcess.geometry.coordinates.length < 2 then
        let c := displayMessage "No valid drawing (LineString >= 2 points) found." "error" c
        ((updateUIState b .initial c).ctrl, none)
      else
        let aoiToProcess : FeatureCollection := { features := [featureToProcess] }
        match (updateUIState b .processing c).andThen fun c =>
            .done (displayMessage "Processing AoI..." "info" c) with
        | .done c => (c, some (.finish aoiToProcess))
        | .threw _ c => (c, none)

/-- The `try` block of the finish handler from the arrival of the response on. -/
def finishTry (b : Builtins) (aoiToProcess : FeatureCollection) (fr : FetchResult)
    (c : Ctrl) : Outcome :=
  match fr with
  | .rejected message => .threw message c
  | .resolved response =>
    let responseBody := response.body
    if !response.ok then .threw (finishErrorMsg b response) c
    else if responseBody.isEmpty then .threw "Empty response received from server" c
    else
      match b.JSON_parse responseBody with
      | .error message => .threw message c
      | .ok stats =>
        let c := { c with currentAoiGeoJson := some aoiToProcess }
        match stats.get "is_closed" with
        | none => .threw (b.typeErrorMessage "is_closed") c
        | some is_closed =>
          let c := { c with isAoiClosed := is_closed.truthy }
          let c := displayStats stats c
          let c := addOrUpdateGeoJsonLayer .original (.aoi aoiToProcess) c.showOriginalChk c
          match coordinatesLength aoiToProcess with
          | none => .threw (b.typeErrorMessage "geometry") c
          | some n =>
            if c.isAoiClosed then
              if n < 4 then updateUIState b .finished_closed c
              else updateUIState b .finished_closed c
            else
              if n < 3 then updateUIState b .finished_open c
              else updateUIState b .finished_open c

/-- The `catch` block of the finish handler. -/
def finishCatch (b : Builtins) (message : JsString) (c : Ctrl) : Ctrl :=
  let c := displayMessage ("Error processing AoI: " ++ messageOrUnknown message) "error" c
  let c := { c with currentAoiGeoJson := none, isAoiClosed := false }
  let currentDrawData := match c.draw with
    | some features => features
    | none => []
  if currentDrawData.length > 0 then (updateUIState b .draw_complete c).ctrl
  else (updateUIState b .initial c).ctrl

/-- The finish handler after `await fetch`. -/
def finishResponse (b : Builtins) (aoiToProcess : FeatureCollection) (fr : FetchResult)
    (c : Ctrl) : Ctrl :=
  match finishTry b aoiToProcess fr c with
  | .done c => c
  | .threw message c => finishCatch b message c

/-! ## Close-loop button -/

/-- Error text built in the `!response.ok` branch of the close-loop handler. -/
def closeLoopErrorMsg (b : Builtins) (response : Response) : JsString :=
  let responseBody := response.body
  let errorMsg : JsString :=
    "Server error: " ++ utf16 (toString response.status) ++ " " ++ response.statusText
  let isJson := match response.contentType with
    | none => false
    | some contentType => !contentType.isEmpty && includes contentType "application/json"
  if isJson then
    match b.JSON_parse responseBody with
    | .ok errorData =>
      let error := (errorData.get "error").getD .undefined
      if errorData.truthy && error.truthy then "Server error: " ++ error.toStr b else errorMsg
    | .error _ =>
      if !responseBody.isEmpty then
        errorMsg ++ " - Raw Response: " ++ responseBody.take 150 ++ "..."
      else errorMsg
  else if !responseBody.isEmpty then errorMsg ++ " - Response: " ++ responseBody.take 150 ++ "..."
  else errorMsg

/-- The close-loop click handler up to `await fetch`: the new state, and the copy
`aoiToClose` with the appended coordinate when a request is sent. -/
def closeLoopClick (b : Builtins) (c : Ctrl) : Ctrl × Option Pending :=
  match c.currentAoiGeoJson with
  | none => (displayMessage "Error: No processed AoI data found to close." "error" c, none)
  | some current =>
    match current.features with
    | [] => (displayMessage "Error: No processed AoI data found to close." "error" c, none)
    | feature :: rest =>
      let coords := feature.geometry.coordinates
      if coords.length < 3 then
        (displayMessage "Cannot close loop: Need at least 3 points." "error" c, none)
      else
        match coords[0]?, coords[coords.length - 1]? with
        | some first, some last =>
          if first.lon == last.lon && first.lat == last.lat then
            let c := displayMessage "Loop is already closed." "info" c
            let c := { c with isAoiClosed := true }
            ((updateUIState b .finished_closed c).ctrl, none)
          else
            let coords := coords ++ [first]
            let feature := { feature with geometry := { feature.geometry with coordinates := coords } }
            let aoiToClose : FeatureCollection := { features := feature :: rest }
            match (updateUIState b .processing c).andThen fun c =>
                .done (displayMessage "Closing loop and reprocessing..." "info" c) with
            | .done c => (c, some (.closeLoop aoiToClose))
            | .threw _ c => (c, none)
        | _, _ => (c, none)

/-- The lines that push the closed geometry back into the draw tool with `draw.set`. -/
def updateDrawFeature (b : Builtins) (c : Ctrl) : Outcome :=
  match c.draw with
  | none => .done c
  | some currentDrawFeatures =>
    match currentDrawFeatures with
    | [] => .done c
    | drawn :: _ =>
      let featureId := drawn.id
      match c.currentAoiGeoJson.bind (fun fc => fc.features.head?) with
      | none => .threw (b.typeErrorMessage "properties") c
      | some f0 =>
        let updatedDrawFeature : Feature :=
          { id := featureId, properties := some (f0.properties.getD []), geometry := f0.geometry }
        .done { c with draw := some [updatedDrawFeature] }

/-- The `try` block of the close-loop handler from the arrival of the response on. -/
def closeLoopTry (b : Builtins) (aoiToClose : FeatureCollection) (fr : FetchResult)
    (c : Ctrl) : Outcome :=
  match fr with
  | .rejected message => .threw message c
  | .resolved response =>
    let responseBody := response.body
    if !response.ok then .threw (closeLoopErrorMsg b response) c
    else if responseBody.isEmpty then .threw "Empty response received from server" c
    else
      match b.JSON_parse responseBody with
      | .error message => .threw message c
      | .ok stats =>
        match stats.get "is_closed" with
        | none => .threw (b.typeErrorMessage "is_closed") c
        | some _ =>
          let c := { c with currentAoiGeoJson := some aoiToClose, isAoiClosed := true }
          let c := displayStats stats c
          let c := addOrUpdateGeoJsonLayer .original (.aoi aoiToClose) c.showOriginalChk c
          (updateDrawFeature b c).andThen fun c =>
            match coordinatesLength aoiToClose with
            | none => .threw (b.typeErrorMessage "geometry") c
            | some n =>
              if n < 4 then updateUIState b .finished_closed c
              else updateUIState b .finished_closed c

/-- The `catch` block of the close-loop handler. -/
def closeLoopCatch (b : Builtins) (message : JsString) (c : Ctrl) : Ctrl :=
  let c := displayMessage ("Error closing loop: " ++ messageOrUnknown message) "error" c
  (updateUIState b .finished_open c).ctrl

/-- The close-loop handler after `await fetch`. -/
def closeLoopResponse (b : Builtins) (aoiToClose : FeatureCollection) (fr : FetchResult)
    (c : Ctrl) : Ctrl :=
  match closeLoopTry b aoiToClose fr c with
  | .done c => c
  | .threw message c => closeLoopCatch b message c

/-! ## Restart button -/

/-- The restart click handler. -/
def restartClick (b : Builtins) (c : Ctrl) : Ctrl :=
  (updateUIState b .initial c).ctrl

/-! ## Segment button -/

/-- Error text built in the `!response.ok` branch of the segment handler. -/
def segmentErrorMsg (b : Builtins) (response : Response) : JsString :=
  let responseBody := response.body
  let errorMsg : JsString :=
    "Server error: " ++ utf16 (toString response.status) ++ " " ++ response.statusText
  let isJson := match response.contentType with
    | none => false
    | some contentType => !contentType.isEmpty && includes contentType "application/json"
  if isJson then
    match b.JSON_parse responseBody with
    | .ok errorData =>
      let error := (errorData.get "error").getD .undefined
      if errorData.truthy && error.truthy then "Server error: " ++ error.toStr b else errorMsg
    | .error _ =>
      if !responseBody.isEmpty then
        errorMsg ++ " - Raw Response: " ++ responseBody.take 150 ++ "..."
      else errorMsg
  else if !responseBody.isEmpty then errorMsg ++ " - Response: " ++ responseBody.take 150 ++ "..."
  else errorMsg

/-- The segment click handler up to `await fetch`: the new state, and the payload when
a request is sent. -/
def segmentClick (b : Builtins) (c : Ctrl) : Ctrl × Option Pending :=
  match c.currentAoiGeoJson with
  | none =>
    (displayMessage "Cannot segment: Processed AoI is not defined or not closed." "error" c, none)
  | some current =>
    if !c.isAoiClosed then
      (displayMessage "Cannot segment: Processed AoI is not defined or not closed." "error" c,
        none)
    else
      match coordinatesLength current with
      | none => (c, none)
      | some n =>
        if n < 4 then
          (displayMessage "Cannot segment: Closed AoI needs at least 4 points (first=last)."
            "error" c, none)
        else
          let gridArea := b.parseFloat c.gridAreaInput
          let bufferKm := b.parseFloat c.bufferKmInput
          if gridArea.isNaN || gridArea.leZero then
            (displayMessage "Please enter a valid positive Grid Area." "error" c, none)
          else if bufferKm.isNaN || bufferKm.ltZero then
            (displayMessage "Please enter a valid non-negative Buffer distance." "error" c,
              none)
          else
            match (updateUIState b .segmenting c).andThen fun c =>
                .done (displayMessage "Segmenting AoI..." "info" c) with
            | .done c => (c, some (.segment current gridArea bufferKm))
            | .threw _ c => (c, none)

/-- The `try` block of the segment handler from the arrival of the response on. -/
def segmentTry (b : Builtins) (fr : FetchResult) (c : Ctrl) : Outcome :=
  match fr with
  | .rejected message => .threw message c
  | .resolved response =>
    let responseBody := response.body
    if !response.ok then .threw (segmentErrorMsg b response) c
    else if responseBody.isEmpty then .threw "Empty response received from server" c
    else
      match b.JSON_parse responseBody with
      | .error message => .threw message c
      | .ok result =>
        match result.get "segmented_geojson" with
        | none => .threw (b.typeErrorMessage "segmented_geojson") c
        | some segmented_geojson =>
          let c := { c with segmentedGeoJson := segmented_geojson }
          let message := (result.get "message").getD .undefined
          (displayMessageValue b
              (if message.truthy then message else .str "Segmentation complete.")
              "success" c).andThen fun c =>
            let c := addOrUpdateGeoJsonLayer .segmented (.raw c.segmentedGeoJson)
              c.showSegmentedChk c
            let filename := (result.get "filename").getD .undefined
            let c := if filename.truthy then
                { c with downloadLinkDiv :=
                    "<a href=\"/download/" ++ filename.toStr b ++ "\" download>Download "
                      ++ filename.toStr b ++ "</a>" }
              else { c with downloadLinkDiv := "" }
            updateUIState b .segmented c

/-- The `catch` block of the segment handler. -/
def segmentCatch (b : Builtins) (message : JsString) (c : Ctrl) : Ctrl :=
  let c := displayMessage ("Error during segmentation: " ++ messageOrUnknown message) "error" c
  let c := { c with map := c.map.map removeSegmentedOverlay }
  let c := { c with segmentedGeoJson := .null, downloadLinkDiv := "" }
  (updateUIState b .finished_closed c).ctrl

/-- The segment handler after `await fetch`. -/
def segmentResponse (b : Builtins) (fr : FetchResult) (c : Ctrl) : Ctrl :=
  match segmentTry b fr c with
  | .done c => c
  | .threw message c => segmentCatch b message c

/-! ## Checkbox listeners -/

/-- The `change` listener of `showOriginalChk`; `checked` is `event.target.checked`. -/
def onShowOriginalChange (checked : Bool) (c : Ctrl) : Ctrl :=
  let c := { c with showOriginalChk := checked }
  match c.map with
  | none => c
  | some m =>
    match m.originalLayer with
    | none => c
    | some _ => { c with map := some { m with originalLayer := some checked } }

/-- The `change` listener of `showSegmentedChk`. -/
def onShowSegmentedChange (checked : Bool) (c : Ctrl) : Ctrl :=
  let c := { c with showSegmentedChk := checked }
  match c.map with
  | none => c
  | some m =>
    match m.segmentedLayer with
    | none => c
    | some _ => { c with map := some { m with segmentedLayer := some checked } }

/-! ## The controller as a transition system

Handlers run to completion one at a time; an `async` handler gives the control back at
its `await`, and its continuation runs when the response arrives.  `inFlight` lists the
suspended continuations.  A draw event carries `store`, the features the draw tool holds
when the event fires (what `draw.getAll()` returns inside the handler). -/

/-- Inputs of the controller. -/
inductive Event where
  | drawCreate (store : List Feature) (features : List Feature)
  | drawDelete (store : List Feature)
  | drawUpdate (store : List Feature) (features : List Feature) (action : String)
  | drawModechange (store : List Feature) (mode : String)
  | drawSelectionchange (store : List Feature) (features : List Feature)
  | finishClick
  | closeLoopClick
  | restartClick
  | segmentClick
  | gridAreaInput (value : String)
  | bufferKmInput (value : String)
  | showOriginalChange (checked : Bool)
  | showSegmentedChange (checked : Bool)
  | response (i : Nat) (fr : FetchResult)

/-- Controller state together with the requests in flight. -/
structure Sys where
  ctrl : Ctrl
  inFlight : List Pending

/-- Continuation of a pending request. -/
def resume (b : Builtins) (p : Pending) (fr : FetchResult) (c : Ctrl) : Ctrl :=
  match p with
  | .finish aoiToProcess => finishResponse b aoiToProcess fr c
  | .closeLoop aoiToClose => closeLoopResponse b aoiToClose fr c
  | .segment _ _ _ => segmentResponse b fr c

/-- A draw event: the handlers exist once the draw tool does; the tool's store is
`store` when the handler runs. -/
def onDraw (store : List Feature) (handler : Ctrl → Ctrl) (s : Sys) : Sys :=
  match s.ctrl.draw with
  | none => s
  | some _ => { s with ctrl := handler { s.ctrl with draw := some store } }

/-- A click: a disabled button receives none; a sent request joins `inFlight`. -/
def onClick (disabled : Bool) (handler : Ctrl → Ctrl × Option Pending) (s : Sys) : Sys :=
  if disabled then s
  else { ctrl := (handler s.ctrl).1, inFlight := s.inFlight ++ (handler s.ctrl).2.toList }

/-- One step of the controller. -/
def step (b : Builtins) (e : Event) (s : Sys) : Sys :=
  match e with
  | .drawCreate store features => onDraw store (onDrawCreate b features) s
  | .drawDelete store => onDraw store (onDrawDelete b) s
  | .drawUpdate store features action => onDraw store (onDrawUpdate b features action) s
  | .drawModechange store mode => onDraw store (onDrawModechange b mode) s
  | .drawSelectionchange store features => onDraw store (onDrawSelectionchange b features) s
  | .finishClick => onClick s.ctrl.finishBtnDisabled (finishClick b) s
  | .closeLoopClick => onClick s.ctrl.closeLoopBtnDisabled (closeLoopClick b) s
  | .restartClick => onClick s.ctrl.restartBtnDisabled (fun c => (restartClick b c, none)) s
  | .segmentClick => onClick s.ctrl.segmentBtnDisabled (segmentClick b) s
  | .gridAreaInput value => { s with ctrl := { s.ctrl with gridAreaInput := value } }
  | .bufferKmInput value => { s with ctrl := { s.ctrl with bufferKmInput := value } }
  | .showOriginalChange checked => { s with ctrl := onShowOriginalChange checked s.ctrl }
  | .showSegmentedChange checked => { s with ctrl := onShowSegmentedChange checked s.ctrl }
  | .response i fr =>
    match s.inFlight[i]? with
    | none => s
    | some p => { ctrl := resume b p fr s.ctrl, inFlight := s.inFlight.eraseIdx i }

/-- The state when the script has run and the map `load` callback has finished: the
module-level variables hold their declared values, the page `dom` is arbitrary. -/
def initialSys (b : Builtins) (dom : Ctrl) : Sys :=
  { ctrl := onMapLoad b { dom with currentAoiGeoJson := none, segmentedGeoJson := .null,
                                   draw := none, isAoiClosed := false,
                                   featureExistsOnMap := false },
    inFlight := [] }

/-- Run a list of events. -/
def run (b : Builtins) (es : List Event) (s : Sys) : Sys :=
  es.foldl (fun s e => step b e s) s

/-- States reachable with events, clicks and responses interleaved in any order. -/
inductive Reachable (b : Builtins) : Sys → Prop where
  | init (dom : Ctrl) : Reachable b (initialSys b dom)
  | step (e : Event) (s : Sys) : Reachable b s → Reachable b (step b e s)

/-- States reachable when every response arrives before the next event: an event is
handled only while no request is in flight, and the response to the request in flight may
arrive at any state.  The states between a click and its response are included.  `env`
is what is assumed of the drawing surface when event `e` fires in state `c`. -/
inductive SeqReachable (b : Builtins) (env : Ctrl → Event → Prop) : Sys → Prop where
  | init (dom : Ctrl) : SeqReachable b env (initialSys b dom)
  | event (e : Event) (s : Sys) :
      SeqReachable b env s → s.inFlight = [] → env s.ctrl e →
      SeqReachable b env (step b e s)
  | response (fr : FetchResult) (s : Sys) :
      SeqReachable b env s → SeqReachable b env (step b (.response 0 fr) s)

/-- Coordinates of the first feature of a list of features. -/
def firstCoords (features : List Feature) : Option (List Coord) :=
  features.head?.map (fun f => f.geometry.coordinates)

/-- The processed AOI, when present, has the coordinates of the first feature that the
drawing surface holds. -/
def AoiMatchesSurface (c : Ctrl) : Prop :=
  ∀ fc, c.currentAoiGeoJson = some fc →
    ∃ coords, firstCoords fc.features = some coords ∧ c.draw.bind firstCoords = some coords

/-- Contract of the drawing surface: the first feature keeps its coordinates across a
mode change, a selection change and an update whose action is not an edit. -/
def surfaceContract (c : Ctrl) : Event → Prop
  | .drawModechange store _ => firstCoords store = c.draw.bind firstCoords
  | .drawSelectionchange store _ => firstCoords store = c.draw.bind firstCoords
  | .drawUpdate store features action =>
      (features ≠ [] ∧ action ≠ "change_coordinates" ∧ action ≠ "move") →
        firstCoords store = c.draw.bind firstCoords
  | _ => True

/-- The segmentation result, when present, belongs to a processed AOI that is closed and
has at least 4 coordinates. -/
def SegmentationBacked (c : Ctrl) : Prop :=
  c.segmentedGeoJson ≠ .null →
    ∃ fc n, c.currentAoiGeoJson = some fc ∧ c.isAoiClosed = true ∧
      coordinatesLength fc = some n ∧ 4 ≤ n

/-- Effect of `addOrUpdateGeoJsonLayer` on the map alone. -/
def overlayMap (o : Overlay) (geoJsonData : GeoJsonData) (isVisible : Bool)
    (map : Option MapState) : Option MapState :=
  match map with
  | none => none
  | some m =>
    if !geoJsonData.truthy then some m
    else if !m.styleLoaded then some m
    else
      match o with
      | .original =>
        some { m with originalSource := some geoJsonData, originalLayer := some isVisible }
      | .segmented =>
        some { m with segmentedSource := some geoJsonData, segmentedLayer := some isVisible }

/-- The state the claims ask for after an edit of the sketch: processed AOI and
segmentation result gone, closed flag false, UI in `draw_complete`, segment and
close-loop disabled. -/
def Invalidated (c : Ctrl) : Prop :=
  c.currentAoiGeoJson = none ∧ c.segmentedGeoJson = .null ∧ c.isAoiClosed = false ∧
    c.uiState = .draw_complete ∧ c.segmentBtnDisabled = true ∧ c.closeLoopBtnDisabled = true

/-- Effect of a handler that either resets the derived data or keeps it; the finish and
close-loop buttons may change only when no processed AOI exists. -/
def QuietEffect (c c' : Ctrl) : Prop :=
  (c'.currentAoiGeoJson = none ∧ c'.segmentedGeoJson = .null) ∨
  (c'.currentAoiGeoJson = c.currentAoiGeoJson ∧ c'.segmentedGeoJson = c.segmentedGeoJson ∧
    c'.isAoiClosed = c.isAoiClosed ∧ c'.draw = c.draw ∧
    (c.currentAoiGeoJson = none ∨
      (c'.finishBtnDisabled = c.finishBtnDisabled ∧
        c'.closeLoopBtnDisabled = c.closeLoopBtnDisabled)))

/-- The part of the C9 invariant that concerns the controller state. -/
def SegCore (c : Ctrl) : Prop :=
  SegmentationBacked c ∧
  (c.finishBtnDisabled = false → c.segmentedGeoJson = .null) ∧
  (c.closeLoopBtnDisabled = false → c.segmentedGeoJson = .null)

/-- What the C9 invariant records about the request in flight: at most one, and for a
segment request the processed AOI it was accepted for. -/
def SegPending (c : Ctrl) : List Pending → Prop
  | [] => True
  | [.finish _] => c.segmentedGeoJson = .null
  | [.closeLoop aoi] => (∃ f rest, aoi.features = f :: rest) ∧ c.segmentedGeoJson = .null
  | [.segment fc _ _] =>
      ∃ n, c.currentAoiGeoJson = some fc ∧ c.isAoiClosed = true ∧
        coordinatesLength fc = some n ∧ 4 ≤ n
  | _ => False

/-- Invariant of the sequential executions behind C9. -/
def SegInv (s : Sys) : Prop :=
  SegCore s.ctrl ∧ SegPending s.ctrl s.inFlight

/-- What the C2 invariant records about the request in flight: at most one; a finish
request carries the first feature of the surface, a close-loop request a copy of a
processed AOI that exists. -/
def AoiPending (c : Ctrl) : List Pending → Prop
  | [] => True
  | [.finish aoi] => ∃ f rest, c.draw = some (f :: rest) ∧ aoi = { features := [f] }
  | [.closeLoop aoi] => (∃ f rest, aoi.features = f :: rest) ∧ c.currentAoiGeoJson ≠ none
  | [.segment _ _ _] => True
  | _ => False

/-- Invariant of the sequential executions behind C2. -/
def AoiInv (s : Sys) : Prop :=
  AoiMatchesSurface s.ctrl ∧ AoiPending s.ctrl s.inFlight

/-! ## Sample data -/

/-- A line feature with id `f1` through the given positions. -/
def lineFeature (positions : List (Int × Int)) : Feature :=
  { id := "f1", properties := some [],
    geometry := { type := "LineString",
                  coordinates := positions.map fun p => { lon := p.1, lat := p.2 } } }

/-- An open line with three positions. -/
def openLine : Feature := lineFeature [(0, 0), (1, 0), (1, 1)]

/-- The open line after its last vertex was dragged. -/
def movedLine : Feature := lineFeature [(0, 0), (1, 0), (2, 2)]

/-- A closed ring with four positions. -/
def closedRing : Feature := lineFeature [(0, 0), (1, 0), (1, 1), (0, 0)]

/-- A second line drawn next to the first. -/
def secondLine : Feature :=
  { id := "f2", properties := some [],
    geometry := { type := "LineString", coordinates := [{ lon := 5, lat := 5 }, { lon := 6, lat := 6 }] } }

/-- An `error` text of 151 code units, the letter `a` repeated. -/
def longError : JsString := List.replicate 151 97

/-- A parser that knows the bodies used in the examples. -/
def sampleParse (body : JsString) : Except JsString Parsed :=
  if body = "\x7b\"is_closed\":true\x7d" then .ok (.obj [("is_closed", .bool true)])
  else if body = "\x7b\"is_closed\":false\x7d" then .ok (.obj [("is_closed", .bool false)])
  else if body = "\x7b\"segmented_geojson\":\x7b\x7d,\"filename\":\"grid.geojson\"\x7d" then
    .ok (.obj [("segmented_geojson", .object "\x7b\x7d" "[object Object]" false),
               ("filename", .str "grid.geojson")])
  else if body = "\x7b\"segmented_geojson\":\x7b\x7d,\"message\":\x7b\"length\":501\x7d\x7d" then
    .ok (.obj [("segmented_geojson", .object "\x7b\x7d" "[object Object]" false),
               ("message", .object "\x7b\"length\":501\x7d" "[object Object]" true)])
  else if body = "\x7b\"error\":\"" ++ longError ++ "\"\x7d" then
    .ok (.obj [("error", .str longError)])
  else if body = "null" then .ok (.value .null)
  else .error "Unexpected token"

/-- A `parseFloat` that knows the default input values and `Infinity`. -/
def sampleParseFloat (text : String) : JsNum :=
  if text = "20" then .fin 20 else if text = "0" then .fin 0
  else if text = "Infinity" then .posInf else .nan

/-- Printing of the special values and of the integers below `10 ^ 21` in absolute value,
which JavaScript prints in decimal; the examples print no other number. -/
def sampleNumberToString : JsNum → JsString
  | .nan => "NaN"
  | .posInf => "Infinity"
  | .negInf => "-Infinity"
  | .fin q => if q.den = 1 ∧ q.num.natAbs < 10 ^ 21 then utf16 (toString q.num) else []

/-- Built-ins for the examples. -/
def sampleBuiltins : Builtins :=
  { JSON_parse := sampleParse, parseFloat := sampleParseFloat,
    numberToString := sampleNumberToString,
    typeErrorMessage := fun name =>
      utf16 ("Cannot read properties of null (reading " ++ name ++ ")") }

/-- A page before the script runs, with a map whose style is loaded. -/
def samplePage : Ctrl :=
  { currentAoiGeoJson := none, segmentedGeoJson := .null, draw := none, isAoiClosed := false,
    featureExistsOnMap := false,
    map := some { styleLoaded := true, originalSource := none, originalLayer := none,
                  segmentedSource := none, segmentedLayer := none },
    finishBtnDisabled := true, closeLoopBtnDisabled := true, segmentBtnDisabled := true,
    restartBtnDisabled := true, closeLoopBtnDisplay := .none, stepDrawDiv := .block,
    stepFinishDiv := .none, stepSegmentDiv := .none, gridAreaInput := "20",
    bufferKmInput := "0", statsDiv := .notCalculated,
    messagesDiv := { type := "info", text := "" }, downloadLinkDiv := "",
    showOriginalChk := true, showSegmentedChk := true, uiState := .initial }

/-- A 200 response with the given body. -/
def okResponse (body : JsString) : Response :=
  { status := 200, statusText := "OK", contentType := some "application/json", body := body }

/-- Stats response reporting a closed line. -/
def closedStats : Response := okResponse "\x7b\"is_closed\":true\x7d"

/-- Stats response reporting an open line. -/
def openStats : Response := okResponse "\x7b\"is_closed\":false\x7d"

/-- Segmentation response with a grid and a file name. -/
def gridResult : Response :=
  okResponse "\x7b\"segmented_geojson\":\x7b\x7d,\"filename\":\"grid.geojson\"\x7d"

/-- A selection change arrives while the finish request is in flight. -/
def duplicateFinishTrace : List Event :=
  [.drawCreate [openLine] [openLine], .finishClick,
   .drawSelectionchange [openLine] [openLine]]

/-- The sketch is moved and finished again while the segment request is in flight. -/
def duplicateSegmentTrace : List Event :=
  [.drawCreate [closedRing] [closedRing], .finishClick,
   .response 0 (.resolved closedStats), .segmentClick,
   .drawUpdate [closedRing] [closedRing] "move", .finishClick,
   .response 1 (.resolved closedStats)]

/-- The sketch is moved while the finish request is in flight. -/
def staleFinishTrace : List Event :=
  [.drawCreate [openLine] [openLine], .finishClick,
   .drawUpdate [movedLine] [movedLine] "move", .response 0 (.resolved openStats)]

/-- The sketch is moved while the segment request is in flight. -/
def staleSegmentTrace : List Event :=
  [.drawCreate [closedRing] [closedRing], .finishClick,
   .response 0 (.resolved closedStats), .segmentClick,
   .drawUpdate [movedLine] [movedLine] "move", .response 0 (.resolved gridResult)]

/-- Draw the closed ring, finish it, segment it; every response arrives at once. -/
def sampleSegmented : Sys :=
  step sampleBuiltins (.response 0 (.resolved gridResult))
    (step sampleBuiltins .segmentClick
      (step sampleBuiltins (.response 0 (.resolved closedStats))
        (step sampleBuiltins .finishClick
          (step sampleBuiltins (.response 0 (.rejected ""))
            (step sampleBuiltins (.drawCreate [closedRing] [closedRing])
              (initialSys sampleBuiltins samplePage))))))

/-- After `sampleSegmented`, segment again: the request is in flight. -/
def sampleResegmenting : Sys :=
  step sampleBuiltins .segmentClick sampleSegmented

/-- Draw the open line and finish it; the response arrives at once. -/
def sampleFinished : Sys :=
  step sampleBuiltins (.response 0 (.resolved openStats))
    (step sampleBuiltins .finishClick
      (step sampleBuiltins (.response 0 (.rejected ""))
        (step sampleBuiltins (.drawCreate [openLine] [openLine])
          (initialSys sampleBuiltins samplePage))))

/-- After `sampleFinished`, close the loop: the request is in flight. -/
def sampleClosing : Sys :=
  step sampleBuiltins .closeLoopClick sampleFinished

/-- A request that fails: transport error, non-2xx status, empty body on a 2xx response,
or a body that `JSON.parse` rejects. -/
def RequestFails (b : Builtins) : FetchResult → Prop
  | .rejected _ => True
  | .resolved r => r.ok = false ∨ r.body = "" ∨ ∃ message, b.JSON_parse r.body = .error message

/-- A 400 response with a JSON body whose `error` field is `longError`. -/
def longErrorResponse : Response :=
  { status := 400, statusText := "Bad Request", contentType := some "application/json",
    body := "\x7b\"error\":\"" ++ longError ++ "\"\x7d" }

/-- A 500 response with an HTML body. -/
def serverError : Response :=
  { status := 500, statusText := "Internal Server Error", contentType := some "text/html",
    body := "<html>boom</html>" }

/-- The finish request for the open line is in flight. -/
def sampleProcessing : Sys :=
  run sampleBuiltins [.drawCreate [openLine] [openLine], .finishClick]
    (initialSys sampleBuiltins samplePage)

/-- The closed ring after it was dragged to another place. -/
def movedRing : Feature := lineFeature [(5, 5), (6, 5), (6, 6), (5, 5)]

/-- Draw the closed ring and finish it; the response arrives at once. -/
def sampleFinishedClosed : Sys :=
  run sampleBuiltins
    [.drawCreate [closedRing] [closedRing], .finishClick, .response 0 (.resolved closedStats)]
    (initialSys sampleBuiltins samplePage)

/-- Segmentation response whose `message` is an object with a `length` of 501. -/
def lengthyMessageResult : Response :=
  okResponse "\x7b\"segmented_geojson\":\x7b\x7d,\"message\":\x7b\"length\":501\x7d\x7d"

/-- The ring is dragged while the segment request is in flight; the request then fails. -/
def editedSegmentFailureTrace : List Event :=
  [.segmentClick, .drawUpdate [movedRing] [movedRing] "move",
   .response 0 (.resolved serverError)]

/-- The line is dragged while the close-loop request is in flight; the request then
fails. -/
def editedCloseLoopFailureTrace : List Event :=
  [.closeLoopClick, .drawUpdate [movedLine] [movedLine] "move",
   .response 0 (.resolved serverError)]

/-! ## Equations for the helpers -/

/-- The empty literal is the empty list of code units. -/
@[simp] theorem utf16_empty : utf16 "" = [] := rfl

/-- A number passes the grid-area test exactly when it is greater than 0. -/
theorem JsNum.positive_iff (x : JsNum) : x.Positive ↔ (x.isNaN || x.leZero) = false := by
  cases x <;> simp [JsNum.Positive, JsNum.isNaN, JsNum.leZero]

/-- A number passes the buffer test exactly when it is at least 0. -/
theorem JsNum.nonNegative_iff (x : JsNum) :
    x.NonNegative ↔ (x.isNaN || x.ltZero) = false := by
  cases x <;> simp [JsNum.NonNegative, JsNum.isNaN, JsNum.ltZero]

theorem addOrUpdateGeoJsonLayer_eq (o : Overlay) (d : GeoJsonData) (v : Bool) (c : Ctrl) :
    addOrUpdateGeoJsonLayer o d v c = { c with map := overlayMap o d v c.map } := by
  unfold addOrUpdateGeoJsonLayer overlayMap
  cases hm : c.map with
  | none => cases c; simp_all
  | some m =>
    by_cases h1 : d.truthy = true <;> by_cases h2 : m.styleLoaded = true <;> cases o <;>
      cases c <;> simp_all

theorem clearMapLayersAndData_eq (c : Ctrl) :
    clearMapLayersAndData c =
      { c with map := c.map.map removeAllOverlays, currentAoiGeoJson := none,
               segmentedGeoJson := .null, isAoiClosed := false, featureExistsOnMap := false,
               downloadLinkDiv := "", statsDiv := .notCalculated, showOriginalChk := true,
               showSegmentedChk := true, gridAreaInput := "20", bufferKmInput := "0",
               draw := c.draw.map (fun _ => []) } := by
  unfold clearMapLayersAndData
  cases hd : c.draw <;> cases c <;> simp_all

/-! ## C1: finish with a successful response -/

/-- C1: when the first feature of the sketch is a LineString with at least 2 coordinates,
a finish click sends the collection holding a copy of that feature alone, and a 2xx
response with a non-empty body that parses to stats stores that collection as the
processed AOI, stores the truthiness of `is_closed` as the closed flag, and ends in
`finished_open` exactly when `is_closed` is false and in `finished_closed` exactly when
it is true. -/
theorem C1_finish_success (b : Builtins) (c : Ctrl) (f : Feature) (rest : List Feature)
    (r : Response) (stats : Parsed) (is_closed : JsVal)
    (hdraw : c.draw = some (f :: rest))
    (htype : f.geometry.type = "LineString")
    (hlen : 2 ≤ f.geometry.coordinates.length)
    (hok : r.ok = true) (hbody : r.body ≠ "")
    (hparse : b.JSON_parse r.body = .ok stats)
    (hfield : stats.get "is_closed" = some is_closed) :
    (finishClick b c).2 = some (.finish { features := [f] }) ∧
    (finishResponse b { features := [f] } (.resolved r) (finishClick b c).1).currentAoiGeoJson
      = some { features := [f] } ∧
    (finishResponse b { features := [f] } (.resolved r) (finishClick b c).1).isAoiClosed
      = is_closed.truthy ∧
    ((finishResponse b { features := [f] } (.resolved r) (finishClick b c).1).uiState
      = .finished_open ↔ is_closed.truthy = false) ∧
    ((finishResponse b { features := [f] } (.resolved r) (finishClick b c).1).uiState
      = .finished_closed ↔ is_closed.truthy = true) := by
  have hbody : r.body ≠ [] := by simpa using hbody
  have hlen' : ¬ f.geometry.coordinates.length < 2 := by omega
  have hclick : finishClick b c =
      ((displayMessage "Processing AoI..." "info" (updateUIState b .processing c).ctrl),
        some (.finish { features := [f] })) := by
    simp [finishClick, hdraw, htype, hlen', updateUIState, Outcome.andThen, Outcome.ctrl]
  rw [hclick]
  refine ⟨rfl, ?_⟩
  cases hv : is_closed.truthy
  · simp [finishResponse, finishTry, hok, hbody, hparse, hfield, hv, coordinatesLength,
      updateUIState, displayStats, addOrUpdateGeoJsonLayer_eq, displayMessage, Outcome.ctrl]
  · by_cases h4 : f.geometry.coordinates.length < 4 <;>
      simp [finishResponse, finishTry, hok, hbody, hparse, hfield, hv, coordinatesLength,
        updateUIState, displayStats, addOrUpdateGeoJsonLayer_eq, displayMessage, Outcome.ctrl,
        h4]

/-- Witness of C1: the open three-point line and a response reporting an open line end
in `finished_open`. -/
theorem C1_finish_success_witness :
    (finishResponse sampleBuiltins { features := [openLine] } (.resolved openStats)
      (finishClick sampleBuiltins { samplePage with draw := some [openLine] }).1).uiState
      = .finished_open :=
  ((C1_finish_success sampleBuiltins { samplePage with draw := some [openLine] } openLine []
      openStats (.obj [("is_closed", .bool false)]) (.bool false)
      rfl (by decide) (by decide) (by decide) (by decide) (by rfl) (by rfl)).2.2.2.1).mpr rfl

/-! ## C3: an edit of the sketch invalidates the processed AOI -/

/-- C3: in a state where the processed AOI is set, a `draw.create` event with at least one
feature, and a `draw.update` event with at least one feature and action
`change_coordinates` or `move`, both leave the processed AOI absent, the segmentation
result absent, the closed flag false, the UI in `draw_complete` and the segment and
close-loop buttons disabled. -/
theorem C3_edit_invalidates (b : Builtins) (c : Ctrl) (features : List Feature)
    (action : String) (_hset : c.currentAoiGeoJson.isSome = true) (hfeat : 0 < features.length)
    (hact : action = "change_coordinates" ∨ action = "move") :
    Invalidated (onDrawCreate b features c) ∧ Invalidated (onDrawUpdate b features action c) := by
  constructor
  · simp [Invalidated, onDrawCreate, hfeat, updateUIState, Outcome.ctrl, displayMessage]
  · rcases hact with h | h <;>
      simp [Invalidated, onDrawUpdate, hfeat, h, updateUIState, Outcome.ctrl, Outcome.andThen,
        displayMessage]

/-- Witness of C3: a processed closed ring is invalidated by a move of the sketch. -/
theorem C3_edit_invalidates_witness :
    Invalidated (onDrawUpdate sampleBuiltins [movedLine] "move"
      { samplePage with currentAoiGeoJson := some { features := [closedRing] },
                        isAoiClosed := true, draw := some [movedLine] }) :=
  (C3_edit_invalidates sampleBuiltins
    { samplePage with currentAoiGeoJson := some { features := [closedRing] },
                      isAoiClosed := true, draw := some [movedLine] }
    [movedLine] "move" rfl (by decide) (Or.inr rfl)).2

/-! ## C7: restart -/

/-- C7: from any controller state the restart handler ends in `initial` with the draw
store emptied, processed AOI and segmentation result absent, closed flag false, both
overlays (layer and source) removed from the map, the download link empty, the grid-area
input at 20 and the buffer input at 0. -/
theorem C7_restart (b : Builtins) (c : Ctrl) :
    (restartClick b c).uiState = .initial ∧
    (restartClick b c).draw = c.draw.map (fun _ => []) ∧
    (restartClick b c).currentAoiGeoJson = none ∧
    (restartClick b c).segmentedGeoJson = .null ∧
    (restartClick b c).isAoiClosed = false ∧
    (restartClick b c).map = c.map.map removeAllOverlays ∧
    (∀ m, (restartClick b c).map = some m →
      m.originalLayer = none ∧ m.originalSource = none ∧
      m.segmentedLayer = none ∧ m.segmentedSource = none) ∧
    (restartClick b c).downloadLinkDiv = "" ∧
    (restartClick b c).gridAreaInput = "20" ∧
    (restartClick b c).bufferKmInput = "0" := by
  simp [restartClick, updateUIState, Outcome.ctrl, clearMapLayersAndData_eq]
  intro m hm
  cases hc : c.map with
  | none => simp [hc] at hm
  | some m0 =>
    simp [hc] at hm
    subst hm
    simp [removeAllOverlays]

/-! ## C4: local validation of the segment click -/

/-- The segment click either rejects (state unchanged, or only an error message shown)
while the precondition fails, or the precondition holds and the request is sent. -/
theorem segmentClick_cases (b : Builtins) (c : Ctrl) :
    ((segmentClick b c = (c, none) ∨
        ∃ text, segmentClick b c = (displayMessage text "error" c, none)) ∧
      ¬ ∃ fc n, c.currentAoiGeoJson = some fc ∧ c.isAoiClosed = true ∧
        coordinatesLength fc = some n ∧ 4 ≤ n ∧
        (b.parseFloat c.gridAreaInput).Positive ∧
        (b.parseFloat c.bufferKmInput).NonNegative) ∨
    ∃ fc n, (c.currentAoiGeoJson = some fc ∧ c.isAoiClosed = true ∧
        coordinatesLength fc = some n ∧ 4 ≤ n ∧
        (b.parseFloat c.gridAreaInput).Positive ∧
        (b.parseFloat c.bufferKmInput).NonNegative) ∧
      segmentClick b c =
        (displayMessage "Segmenting AoI..." "info" (updateUIState b .segmenting c).ctrl,
          some (.segment fc (b.parseFloat c.gridAreaInput) (b.parseFloat c.bufferKmInput))) := by
  cases hcur : c.currentAoiGeoJson with
  | none => left; exact ⟨Or.inr ⟨_, by simp [segmentClick, hcur]; rfl⟩, by simp⟩
  | some fc =>
    cases hcl : c.isAoiClosed with
    | false => left; exact ⟨Or.inr ⟨_, by simp [segmentClick, hcur, hcl]; rfl⟩, by simp⟩
    | true =>
      cases hn : coordinatesLength fc with
      | none => left; exact ⟨Or.inl (by simp [segmentClick, hcur, hcl, hn]), by simp [hn]⟩
      | some n =>
        by_cases h4 : n < 4
        · left
          refine ⟨Or.inr ⟨_, by simp [segmentClick, hcur, hcl, hn, h4]; rfl⟩, ?_⟩
          simp [hn]; intro _; omega
        · by_cases hg : ((b.parseFloat c.gridAreaInput).isNaN
              || (b.parseFloat c.gridAreaInput).leZero) = true
          · left
            refine ⟨Or.inr ⟨_, by simp only [segmentClick, hcur, hcl, hn, h4, hg]; simp; rfl⟩, ?_⟩
            rintro ⟨_, _, _, _, _, _, hpos, _⟩
            rw [JsNum.positive_iff, hg] at hpos
            exact absurd hpos (by simp)
          · by_cases hk : ((b.parseFloat c.bufferKmInput).isNaN
                || (b.parseFloat c.bufferKmInput).ltZero) = true
            · left
              refine ⟨Or.inr ⟨_, by
                simp only [segmentClick, hcur, hcl, hn, h4, hg, hk]; simp; rfl⟩, ?_⟩
              rintro ⟨_, _, _, _, _, _, _, hnn⟩
              rw [JsNum.nonNegative_iff, hk] at hnn
              exact absurd hnn (by simp)
            · right
              refine ⟨fc, n, ⟨rfl, rfl, hn, by omega,
                (JsNum.positive_iff _).mpr (by simpa using hg),
                (JsNum.nonNegative_iff _).mpr (by simpa using hk)⟩, ?_⟩
              simp only [segmentClick, hcur, hcl, hn, h4, hg, hk]
              simp [updateUIState, Outcome.andThen, Outcome.ctrl]

/-- C4: the segment click sends a request exactly when the processed AOI is present, the
closed flag is set, the AOI has at least 4 coordinates, the grid-area input parses to a
number above 0 and the buffer input parses to a number at least 0 (`Infinity` is such a
number, `NaN` is not); the request carries that AOI and the two parsed numbers; when
nothing is sent the state is unchanged except for the message shown. -/
theorem C4_segment_precondition (b : Builtins) (c : Ctrl) :
    ((∃ p, (segmentClick b c).2 = some p) ↔
      ∃ fc n, c.currentAoiGeoJson = some fc ∧ c.isAoiClosed = true ∧
        coordinatesLength fc = some n ∧ 4 ≤ n ∧
        (b.parseFloat c.gridAreaInput).Positive ∧
        (b.parseFloat c.bufferKmInput).NonNegative) ∧
    (∀ p, (segmentClick b c).2 = some p →
      ∃ fc, p = .segment fc (b.parseFloat c.gridAreaInput) (b.parseFloat c.bufferKmInput) ∧
        c.currentAoiGeoJson = some fc) ∧
    ((segmentClick b c).2 = none →
      (segmentClick b c).1 = { c with messagesDiv := (segmentClick b c).1.messagesDiv }) := by
  rcases segmentClick_cases b c with ⟨h, hno⟩ | ⟨fc, n, hyes, h⟩
  · rcases h with h | ⟨text, h⟩ <;> rw [h] <;>
      exact ⟨⟨fun ⟨_, hp⟩ => by simp at hp, fun hc => absurd hc hno⟩,
        fun _ hp => by simp at hp, fun _ => rfl⟩
  · rw [h]
    refine ⟨⟨fun _ => ⟨fc, n, hyes⟩, fun _ => ⟨_, rfl⟩⟩, ?_, fun hp => by simp at hp⟩
    intro p hp
    simp at hp
    exact ⟨fc, hp.symm, hyes.1⟩

/-- C4 at `Infinity`: with the closed ring and the grid-area input `Infinity`, which
parses to a number greater than 0, the request is sent. -/
theorem C4_segment_precondition_infinity :
    ∃ p, (segmentClick sampleBuiltins
      { samplePage with currentAoiGeoJson := some { features := [closedRing] },
                        isAoiClosed := true, gridAreaInput := "Infinity" }).2 = some p :=
  (C4_segment_precondition sampleBuiltins
    { samplePage with currentAoiGeoJson := some { features := [closedRing] },
                      isAoiClosed := true, gridAreaInput := "Infinity" }).1.mpr
    ⟨{ features := [closedRing] }, 4, rfl, rfl, rfl, le_refl 4, trivial, by
      show (0 : ℚ) ≤ 0
      exact le_refl 0⟩

/-! ## C5: closing an open loop -/

/-- On an AOI with at least 3 coordinates whose first and last positions differ, the
close-loop click enters `processing` and sends a copy with the first position appended. -/
theorem closeLoopClick_open (b : Builtins) (c : Ctrl) (f : Feature) (rest : List Feature)
    (first last : Coord)
    (hcur : c.currentAoiGeoJson = some { features := f :: rest })
    (hn : 3 ≤ f.geometry.coordinates.length)
    (hfirst : f.geometry.coordinates.head? = some first)
    (hlast : f.geometry.coordinates.getLast? = some last)
    (hne : first ≠ last) :
    closeLoopClick b c =
      (displayMessage "Closing loop and reprocessing..." "info"
          (updateUIState b .processing c).ctrl,
        some (.closeLoop { features :=
          { f with geometry := { f.geometry with
              coordinates := f.geometry.coordinates ++ [first] } } :: rest })) := by
  have h0 : f.geometry.coordinates[0]? = some first := by
    rw [← List.head?_eq_getElem?]; exact hfirst
  have h1 : f.geometry.coordinates[f.geometry.coordinates.length - 1]? = some last := by
    rw [← List.getLast?_eq_getElem?]; exact hlast
  have hlt : ¬ f.geometry.coordinates.length < 3 := by omega
  simp [closeLoopClick, hcur, hlt, h0, h1, updateUIState, Outcome.andThen, Outcome.ctrl]
  intro hlon hlat
  apply hne
  cases first; cases last
  simp_all

/-- C5: for a processed AOI with at least 3 coordinates whose first and last positions
differ, the close-loop click sends a copy whose coordinates are the old ones followed by
the old first one, and a 2xx response with a non-empty body that parses to stats, whatever
its `is_closed`, stores that copy as the processed AOI, sets the closed flag and ends in
`finished_closed` with the segment button enabled. -/
theorem C5_close_loop_success (b : Builtins) (c : Ctrl) (f : Feature) (rest : List Feature)
    (first last : Coord) (r : Response) (stats : Parsed) (is_closed : JsVal)
    (hcur : c.currentAoiGeoJson = some { features := f :: rest })
    (hn : 3 ≤ f.geometry.coordinates.length)
    (hfirst : f.geometry.coordinates.head? = some first)
    (hlast : f.geometry.coordinates.getLast? = some last)
    (hne : first ≠ last)
    (hok : r.ok = true) (hbody : r.body ≠ "")
    (hparse : b.JSON_parse r.body = .ok stats)
    (hfield : stats.get "is_closed" = some is_closed) :
    ∃ aoiToClose, (closeLoopClick b c).2 = some (.closeLoop aoiToClose) ∧
      firstCoords aoiToClose.features = some (f.geometry.coordinates ++ [first]) ∧
      (closeLoopResponse b aoiToClose (.resolved r) (closeLoopClick b c).1).currentAoiGeoJson
        = some aoiToClose ∧
      (closeLoopResponse b aoiToClose (.resolved r) (closeLoopClick b c).1).isAoiClosed = true ∧
      (closeLoopResponse b aoiToClose (.resolved r) (closeLoopClick b c).1).uiState
        = .finished_closed ∧
      (closeLoopResponse b aoiToClose (.resolved r) (closeLoopClick b c).1).segmentBtnDisabled
        = false := by
  have hbody : r.body ≠ [] := by simpa using hbody
  rw [closeLoopClick_open b c f rest first last hcur hn hfirst hlast hne]
  refine ⟨_, rfl, by simp [firstCoords], ?_⟩
  have h4 : ¬ f.geometry.coordinates.length + 1 < 4 := by omega
  cases hd : c.draw with
  | none =>
    simp [closeLoopResponse, closeLoopTry, hok, hbody, hparse, hfield, coordinatesLength,
      updateUIState, displayStats, addOrUpdateGeoJsonLayer_eq, displayMessage, Outcome.ctrl,
      Outcome.andThen, updateDrawFeature, hd, h4]
  | some store =>
    cases store <;>
    simp [closeLoopResponse, closeLoopTry, hok, hbody, hparse, hfield, coordinatesLength,
      updateUIState, displayStats, addOrUpdateGeoJsonLayer_eq, displayMessage, Outcome.ctrl,
      Outcome.andThen, updateDrawFeature, hd, h4]


/-- Witness of C5: the open three-point line is closed by appending its first position. -/
theorem C5_close_loop_success_witness :
    ∃ aoiToClose,
      (closeLoopClick sampleBuiltins
        { samplePage with currentAoiGeoJson := some { features := [openLine] },
                          draw := some [openLine] }).2 = some (.closeLoop aoiToClose) ∧
      firstCoords aoiToClose.features
        = some (openLine.geometry.coordinates ++ [{ lon := 0, lat := 0 }]) :=
  (C5_close_loop_success sampleBuiltins
    { samplePage with currentAoiGeoJson := some { features := [openLine] },
                      draw := some [openLine] }
    openLine [] { lon := 0, lat := 0 } { lon := 1, lat := 1 } openStats
    (.obj [("is_closed", .bool false)]) (.bool false)
    rfl (by decide) rfl rfl (by decide) (by decide) (by decide) (by rfl) (by rfl)).imp
    (fun _ h => ⟨h.1, h.2.1⟩)

/-! ## C6: close-loop on a loop that is already closed -/

/-- On an AOI with at least 3 coordinates whose first and last positions are equal, the
close-loop click marks the AOI closed and goes to `finished_closed` without a request. -/
theorem closeLoopClick_closed (b : Builtins) (c : Ctrl) (f : Feature) (rest : List Feature)
    (first : Coord)
    (hcur : c.currentAoiGeoJson = some { features := f :: rest })
    (hn : 3 ≤ f.geometry.coordinates.length)
    (hfirst : f.geometry.coordinates.head? = some first)
    (hlast : f.geometry.coordinates.getLast? = some first) :
    closeLoopClick b c =
      ((updateUIState b .finished_closed
          { displayMessage "Loop is already closed." "info" c with isAoiClosed := true }).ctrl,
        none) := by
  have h0 : f.geometry.coordinates[0]? = some first := by
    rw [← List.head?_eq_getElem?]; exact hfirst
  have h1 : f.geometry.coordinates[f.geometry.coordinates.length - 1]? = some first := by
    rw [← List.getLast?_eq_getElem?]; exact hlast
  have hlt : ¬ f.geometry.coordinates.length < 3 := by omega
  simp [closeLoopClick, hcur, hlt, h0, h1]

/-- C6: for a processed AOI with at least 3 coordinates whose first position equals its
last, the close-loop click sends no request, keeps the processed AOI, sets the closed flag
and ends in `finished_closed`; a second click gives the same state and again no request. -/
theorem C6_close_loop_already_closed (b : Builtins) (c : Ctrl) (f : Feature)
    (rest : List Feature) (first : Coord)
    (hcur : c.currentAoiGeoJson = some { features := f :: rest })
    (hn : 3 ≤ f.geometry.coordinates.length)
    (hfirst : f.geometry.coordinates.head? = some first)
    (hlast : f.geometry.coordinates.getLast? = some first) :
    (closeLoopClick b c).2 = none ∧
    (closeLoopClick b c).1.currentAoiGeoJson = c.currentAoiGeoJson ∧
    (closeLoopClick b c).1.isAoiClosed = true ∧
    (closeLoopClick b c).1.uiState = .finished_closed ∧
    closeLoopClick b (closeLoopClick b c).1 = closeLoopClick b c := by
  have hstep := closeLoopClick_closed b c f rest first hcur hn hfirst hlast
  have hcur1 : (closeLoopClick b c).1.currentAoiGeoJson = some { features := f :: rest } := by
    rw [hstep]
    by_cases h4 : f.geometry.coordinates.length < 4 <;>
      simp [updateUIState, hcur, coordinatesLength, displayMessage, Outcome.ctrl, h4]
  have hstep1 := closeLoopClick_closed b (closeLoopClick b c).1 f rest first hcur1 hn hfirst hlast
  refine ⟨by rw [hstep], by rw [hcur1, hcur], ?_, ?_, ?_⟩
  · rw [hstep]
    by_cases h4 : f.geometry.coordinates.length < 4 <;>
      simp [updateUIState, hcur, coordinatesLength, displayMessage, Outcome.ctrl, h4]
  · rw [hstep]
    by_cases h4 : f.geometry.coordinates.length < 4 <;>
      simp [updateUIState, hcur, coordinatesLength, displayMessage, Outcome.ctrl, h4]
  · rw [hstep1, hstep]
    by_cases h4 : f.geometry.coordinates.length < 4 <;>
      simp [updateUIState, hcur, coordinatesLength, displayMessage, Outcome.ctrl, h4]

/-- Witness of C6: on the closed ring a second click changes nothing. -/
theorem C6_close_loop_already_closed_witness :
    closeLoopClick sampleBuiltins
        (closeLoopClick sampleBuiltins
          { samplePage with currentAoiGeoJson := some { features := [closedRing] },
                            draw := some [closedRing] }).1
      = closeLoopClick sampleBuiltins
          { samplePage with currentAoiGeoJson := some { features := [closedRing] },
                            draw := some [closedRing] } :=
  (C6_close_loop_already_closed sampleBuiltins
    { samplePage with currentAoiGeoJson := some { features := [closedRing] },
                      draw := some [closedRing] }
    closedRing [] { lon := 0, lat := 0 } rfl (by decide) rfl rfl).2.2.2.2

/-! ## C10: local validation of the finish click -/

/-- C10 fails as stated: with two features on the surface, the first a valid line, the
finish click sends a request although the sketch is not a single feature. -/
theorem C10_counterexample :
    ¬ ((∃ p, (finishClick sampleBuiltins
          { samplePage with draw := some [openLine, secondLine] }).2 = some p) ↔
        ∃ f, ({ samplePage with draw := some [openLine, secondLine] } : Ctrl).draw = some [f] ∧
          f.geometry.type = "LineString" ∧ 2 ≤ f.geometry.coordinates.length) := by
  intro h
  have hsent : ∃ p, (finishClick sampleBuiltins
      { samplePage with draw := some [openLine, secondLine] }).2 = some p := ⟨_, rfl⟩
  obtain ⟨f, hf, _⟩ := h.mp hsent
  simp at hf

/-- C10, amended: with the draw tool available, the finish click sends a request exactly
when the first feature of the store is a LineString with at least 2 coordinates, and the
request body holds that feature alone; otherwise nothing is sent, an error message is
shown and the controller ends in `initial` with the store emptied and the processed AOI
and the segmentation result absent. -/
theorem C10_finish_validation (b : Builtins) (c : Ctrl) (store : List Feature)
    (hdraw : c.draw = some store) :
    ((∃ p, (finishClick b c).2 = some p) ↔
      ∃ f rest, store = f :: rest ∧ f.geometry.type = "LineString" ∧
        2 ≤ f.geometry.coordinates.length) ∧
    (∀ p, (finishClick b c).2 = some p →
      ∃ f rest, store = f :: rest ∧ p = .finish { features := [f] }) ∧
    ((finishClick b c).2 = none →
      (finishClick b c).1.messagesDiv.type = "error" ∧
      (finishClick b c).1.uiState = .initial ∧
      (finishClick b c).1.draw = some [] ∧
      (finishClick b c).1.currentAoiGeoJson = none ∧
      (finishClick b c).1.segmentedGeoJson = .null) := by
  cases store with
  | nil =>
    simp [finishClick, hdraw, updateUIState, Outcome.ctrl, clearMapLayersAndData_eq,
      displayMessage]
  | cons f rest =>
    by_cases ht : f.geometry.type = "LineString"
    · by_cases hl : f.geometry.coordinates.length < 2
      · simp [finishClick, hdraw, updateUIState, Outcome.ctrl, clearMapLayersAndData_eq,
          displayMessage, ht, hl]
      · simp [finishClick, hdraw, updateUIState, Outcome.ctrl, Outcome.andThen,
          displayMessage, ht, hl]
        omega
    · simp [finishClick, hdraw, updateUIState, Outcome.ctrl, clearMapLayersAndData_eq,
        displayMessage, ht]


/-- Witness of C10: with an empty store the finish click resets to `initial`. -/
theorem C10_finish_validation_witness :
    (finishClick sampleBuiltins { samplePage with draw := some [] }).1.uiState = .initial :=
  ((C10_finish_validation sampleBuiltins { samplePage with draw := some [] } [] rfl).2.2
    rfl).2.1

/-! ## C8: controls while a request is in flight -/

/-- Running events from a reachable state gives a reachable state. -/
theorem reachable_run (b : Builtins) (es : List Event) (s : Sys) (h : Reachable b s) :
    Reachable b (run b es s) := by
  induction es generalizing s with
  | nil => exact h
  | cons e es ih => exact ih _ (Reachable.step e s h)


/-- C8, evaluated: after create, finish click and a selection change, a `process_aoi`
request is in flight and the finish button is enabled, and a second click puts a second
`process_aoi` request in flight; after the sketch is moved and finished again during a
segmentation, a `segment_aoi` request is in flight and the segment button is enabled, and
a second click puts a second `segment_aoi` request in flight. -/
theorem C8_duplicate_requests :
    ((run sampleBuiltins duplicateFinishTrace (initialSys sampleBuiltins samplePage)).inFlight.map
        Pending.endpoint = [.process_aoi] ∧
      (run sampleBuiltins duplicateFinishTrace
        (initialSys sampleBuiltins samplePage)).ctrl.finishBtnDisabled = false ∧
      (run sampleBuiltins (duplicateFinishTrace ++ [.finishClick])
        (initialSys sampleBuiltins samplePage)).inFlight.map Pending.endpoint
          = [.process_aoi, .process_aoi]) ∧
    ((run sampleBuiltins duplicateSegmentTrace (initialSys sampleBuiltins samplePage)).inFlight.map
        Pending.endpoint = [.segment_aoi] ∧
      (run sampleBuiltins duplicateSegmentTrace
        (initialSys sampleBuiltins samplePage)).ctrl.segmentBtnDisabled = false ∧
      (run sampleBuiltins (duplicateSegmentTrace ++ [.segmentClick])
        (initialSys sampleBuiltins samplePage)).inFlight.map Pending.endpoint
          = [.segment_aoi, .segment_aoi]) := by
  decide


/-! ## Field lemmas used by the invariants -/

/-- What `updateUIState` does to the fields the invariants speak about. -/
theorem updateUIState_fields (b : Builtins) (st : UIState) (c : Ctrl) :
    ((updateUIState b st c).ctrl.currentAoiGeoJson
        = if st = .initial then none else c.currentAoiGeoJson) ∧
    ((updateUIState b st c).ctrl.segmentedGeoJson
        = if st = .initial then .null else c.segmentedGeoJson) ∧
    ((updateUIState b st c).ctrl.isAoiClosed
        = if st = .initial then false else c.isAoiClosed) ∧
    ((updateUIState b st c).ctrl.draw
        = if st = .initial then c.draw.map (fun _ => []) else c.draw) ∧
    ((updateUIState b st c).ctrl.finishBtnDisabled = false ↔ st = .draw_complete) ∧
    ((updateUIState b st c).ctrl.closeLoopBtnDisabled = false → st = .finished_open) := by
  cases st
  case finished_open =>
    cases hc : c.currentAoiGeoJson with
    | none => simp [updateUIState, Outcome.ctrl, displayMessage, hc]
    | some fc =>
      cases hn : coordinatesLength fc <;>
        simp [updateUIState, Outcome.ctrl, displayMessage, hc, hn]
  case finished_closed =>
    cases hc : c.currentAoiGeoJson with
    | none => simp [updateUIState, Outcome.ctrl, displayMessage, hc]
    | some fc =>
      cases hn : coordinatesLength fc with
      | none => simp [updateUIState, Outcome.ctrl, displayMessage, hc, hn]
      | some n =>
        by_cases h4 : n < 4 <;> simp [updateUIState, Outcome.ctrl, displayMessage, hc, hn, h4]
  all_goals simp [updateUIState, Outcome.ctrl, displayMessage, clearMapLayersAndData_eq]

theorem updateUIState_aoi (b : Builtins) (st : UIState) (c : Ctrl) :
    (updateUIState b st c).ctrl.currentAoiGeoJson
      = if st = .initial then none else c.currentAoiGeoJson :=
  (updateUIState_fields b st c).1

theorem updateUIState_seg (b : Builtins) (st : UIState) (c : Ctrl) :
    (updateUIState b st c).ctrl.segmentedGeoJson
      = if st = .initial then .null else c.segmentedGeoJson :=
  (updateUIState_fields b st c).2.1

theorem updateUIState_closed (b : Builtins) (st : UIState) (c : Ctrl) :
    (updateUIState b st c).ctrl.isAoiClosed
      = if st = .initial then false else c.isAoiClosed :=
  (updateUIState_fields b st c).2.2.1

theorem updateUIState_draw (b : Builtins) (st : UIState) (c : Ctrl) :
    (updateUIState b st c).ctrl.draw
      = if st = .initial then c.draw.map (fun _ => []) else c.draw :=
  (updateUIState_fields b st c).2.2.2.1

theorem updateUIState_finishBtn (b : Builtins) (st : UIState) (c : Ctrl) :
    (updateUIState b st c).ctrl.finishBtnDisabled = false ↔ st = .draw_complete :=
  (updateUIState_fields b st c).2.2.2.2.1

theorem updateUIState_closeLoopBtn (b : Builtins) (st : UIState) (c : Ctrl) :
    (updateUIState b st c).ctrl.closeLoopBtnDisabled = false → st = .finished_open :=
  (updateUIState_fields b st c).2.2.2.2.2

theorem onDrawCreate_core (b : Builtins) (features : List Feature) (c : Ctrl) :
    (onDrawCreate b features c).currentAoiGeoJson = none ∧
    (onDrawCreate b features c).segmentedGeoJson = .null := by
  unfold onDrawCreate
  split <;> simp [updateUIState_aoi, updateUIState_seg]

theorem onDrawDelete_core (b : Builtins) (c : Ctrl) :
    (onDrawDelete b c).currentAoiGeoJson = none ∧
    (onDrawDelete b c).segmentedGeoJson = .null := by
  simp [onDrawDelete, updateUIState, Outcome.andThen, Outcome.ctrl, displayMessage,
    clearMapLayersAndData_eq]

theorem onDrawUpdate_core (b : Builtins) (features : List Feature) (action : String)
    (c : Ctrl) :
    ((onDrawUpdate b features action c).currentAoiGeoJson = none ∧
      (onDrawUpdate b features action c).segmentedGeoJson = .null) ∨
    (features ≠ [] ∧ action ≠ "change_coordinates" ∧ action ≠ "move" ∧
      onDrawUpdate b features action c = c) := by
  unfold onDrawUpdate
  split
  · left
    simp [updateUIState, Outcome.andThen, Outcome.ctrl, displayMessage]
  · split
    · left; simp [updateUIState_aoi, updateUIState_seg]
    · right
      rename_i h1 h2
      simp at h1 h2
      refine ⟨by intro h; simp [h] at h2, ?_, ?_, rfl⟩
      · intro h; have := h1 (by cases features <;> simp_all) ; simp [h] at this
      · intro h; have := h1 (by cases features <;> simp_all) ; simp [h] at this


theorem onDrawModechange_quiet (b : Builtins) (mode : String) (c : Ctrl) :
    QuietEffect c (onDrawModechange b mode c) := by
  unfold onDrawModechange QuietEffect
  cases hd : c.draw with
  | none => right; simp [hd]
  | some data =>
    cases hc : c.currentAoiGeoJson with
    | none =>
      by_cases hdata : 0 < data.length
      · right
        by_cases hm : (mode == "simple_select" || mode == "direct_select") = true <;>
          simp [hdata, hc, hm, updateUIState_aoi, updateUIState_seg, updateUIState_closed,
            updateUIState_draw, hd]
      · by_cases hm : (mode == "draw_line_string") = true
        · left; simp [hdata, hc, hm, updateUIState_aoi, updateUIState_seg]
        · right; simp [hdata, hc, hm, hd]
    | some fc =>
      right
      by_cases hdata : 0 < data.length <;> simp [hdata, hc, hd]

theorem onDrawSelectionchange_quiet (b : Builtins) (features : List Feature) (c : Ctrl) :
    QuietEffect c (onDrawSelectionchange b features c) := by
  unfold onDrawSelectionchange QuietEffect
  right
  cases hc : c.currentAoiGeoJson with
  | none =>
    by_cases hf : 0 < features.length
    · simp [hf, hc, updateUIState_aoi, updateUIState_seg, updateUIState_closed,
        updateUIState_draw]
    · cases hd : c.draw with
      | none => simp [hf, hc, hd]
      | some data =>
        by_cases hdata : 0 < data.length <;>
          simp [hf, hc, hd, hdata, updateUIState_aoi, updateUIState_seg, updateUIState_closed,
            updateUIState_draw]
  | some fc =>
    by_cases hf : 0 < features.length
    · simp [hf, hc]
    · cases hd : c.draw with
      | none => simp [hf, hc, hd]
      | some data =>
        by_cases hdata : 0 < data.length <;> simp [hf, hc, hd, hdata]

theorem restartClick_core (b : Builtins) (c : Ctrl) :
    (restartClick b c).currentAoiGeoJson = none ∧ (restartClick b c).segmentedGeoJson = .null := by
  simp [restartClick, updateUIState_aoi, updateUIState_seg]

theorem finishClick_core (b : Builtins) (c : Ctrl) :
    ((finishClick b c).2 = none ∧
      (((finishClick b c).1.currentAoiGeoJson = none ∧
          (finishClick b c).1.segmentedGeoJson = .null) ∨
        finishClick b c = (displayMessage "Error: Drawing tool not available." "error" c, none)))
    ∨ ∃ f rest, c.draw = some (f :: rest) ∧ (finishClick b c).2 = some (.finish { features := [f] }) ∧
        (finishClick b c).1.currentAoiGeoJson = c.currentAoiGeoJson ∧
        (finishClick b c).1.segmentedGeoJson = c.segmentedGeoJson ∧
        (finishClick b c).1.draw = c.draw := by
  cases hd : c.draw with
  | none => left; simp [finishClick, hd]
  | some store =>
    cases store with
    | nil => left; simp [finishClick, hd, updateUIState_aoi, updateUIState_seg]
    | cons f rest =>
      by_cases hv : (f.geometry.type != "LineString" || decide (f.geometry.coordinates.length < 2)) = true
      · left
        simp only [finishClick, hd, hv]
        simp [updateUIState_aoi, updateUIState_seg]
      · right
        refine ⟨f, rest, rfl, ?_⟩
        simp only [finishClick, hd, hv]
        simp [updateUIState, Outcome.andThen, displayMessage, hd]


theorem outcome_done_ctrl (o : Outcome) (c1 : Ctrl) (h : o = .done c1) : c1 = o.ctrl := by
  subst h; rfl

theorem outcome_threw_ctrl (o : Outcome) (m : JsString) (c1 : Ctrl) (h : o = .threw m c1) :
    c1 = o.ctrl := by
  subst h; rfl

theorem finishTry_shape (b : Builtins) (aoi : FeatureCollection) (fr : FetchResult) (c : Ctrl) :
    ∃ c2, c2.segmentedGeoJson = c.segmentedGeoJson ∧ c2.draw = c.draw ∧
      ((∃ m, finishTry b aoi fr c = .threw m c2) ∨
        (c2.currentAoiGeoJson = some aoi ∧
          ∃ st, st ≠ .initial ∧ finishTry b aoi fr c = updateUIState b st c2)) := by
  cases fr with
  | rejected m => exact ⟨c, rfl, rfl, Or.inl ⟨m, rfl⟩⟩
  | resolved r =>
    by_cases hok : r.ok = true
    swap
    · exact ⟨c, rfl, rfl, Or.inl ⟨_, by simp [finishTry, hok]; rfl⟩⟩
    by_cases hb : r.body = []
    · exact ⟨c, rfl, rfl, Or.inl ⟨_, by simp [finishTry, hok, hb]; rfl⟩⟩
    cases hp : b.JSON_parse r.body with
    | error m => exact ⟨c, rfl, rfl, Or.inl ⟨m, by simp [finishTry, hok, hb, hp]⟩⟩
    | ok stats =>
      cases hg : stats.get "is_closed" with
      | none =>
        exact ⟨{ c with currentAoiGeoJson := some aoi }, rfl, rfl,
          Or.inl ⟨_, by simp [finishTry, hok, hb, hp, hg]; rfl⟩⟩
      | some v =>
        cases hn : coordinatesLength aoi with
        | none =>
          refine ⟨_, ?_, ?_, Or.inl ⟨_, by simp [finishTry, hok, hb, hp, hg, hn]; exact ⟨rfl, rfl⟩⟩⟩
          · simp [displayStats, addOrUpdateGeoJsonLayer_eq]
          · simp [displayStats, addOrUpdateGeoJsonLayer_eq]
        | some n =>
          cases hv : v.truthy with
          | true =>
            refine ⟨_, ?_, ?_, Or.inr ⟨?_, .finished_closed, by simp, by
              simp [finishTry, hok, hb, hp, hg, hn, hv, displayStats, addOrUpdateGeoJsonLayer_eq]
              rfl⟩⟩ <;> simp
          | false =>
            refine ⟨_, ?_, ?_, Or.inr ⟨?_, .finished_open, by simp, by
              simp [finishTry, hok, hb, hp, hg, hn, hv, displayStats, addOrUpdateGeoJsonLayer_eq]
              rfl⟩⟩ <;> simp


theorem finishCatch_core (b : Builtins) (m : JsString) (c : Ctrl) :
    (finishCatch b m c).currentAoiGeoJson = none ∧
    ((finishCatch b m c).segmentedGeoJson = c.segmentedGeoJson ∨
      (finishCatch b m c).segmentedGeoJson = .null) := by
  simp only [finishCatch]
  split_ifs <;> simp [updateUIState_aoi, updateUIState_seg, displayMessage]

theorem finishResponse_core (b : Builtins) (aoi : FeatureCollection) (fr : FetchResult)
    (c : Ctrl) :
    ((finishResponse b aoi fr c).segmentedGeoJson = c.segmentedGeoJson ∨
      (finishResponse b aoi fr c).segmentedGeoJson = .null) ∧
    ((finishResponse b aoi fr c).currentAoiGeoJson = none ∨
      ((finishResponse b aoi fr c).currentAoiGeoJson = some aoi ∧
        (finishResponse b aoi fr c).draw = c.draw)) := by
  obtain ⟨c2, hseg, hdraw, h⟩ := finishTry_shape b aoi fr c
  unfold finishResponse
  rcases h with ⟨m, h⟩ | ⟨haoi, st, hst, h⟩
  · rw [h]
    have hc := finishCatch_core b m c2
    simp only []
    exact ⟨by rw [← hseg]; exact hc.2, Or.inl hc.1⟩
  · rw [h]
    cases ho : updateUIState b st c2 with
    | done c1 =>
      have e := outcome_done_ctrl _ _ ho
      simp only []
      subst e
      simp [updateUIState_seg, updateUIState_aoi, updateUIState_draw, hst, hseg, haoi, hdraw]
    | threw m c1 =>
      have e := outcome_threw_ctrl _ _ _ ho
      have hc := finishCatch_core b m c1
      simp only []
      refine ⟨?_, Or.inl hc.1⟩
      have : c1.segmentedGeoJson = c.segmentedGeoJson := by
        rw [e, updateUIState_seg]; simp [hst, hseg]
      rw [← this]; exact hc.2

theorem closeLoopClick_core (b : Builtins) (c : Ctrl) :
    (closeLoopClick b c).1.currentAoiGeoJson = c.currentAoiGeoJson ∧
    (closeLoopClick b c).1.segmentedGeoJson = c.segmentedGeoJson ∧
    (closeLoopClick b c).1.draw = c.draw ∧
    ((closeLoopClick b c).2 = none ∨
      ∃ aoi f rest, (closeLoopClick b c).2 = some (.closeLoop aoi) ∧ aoi.features = f :: rest ∧
        c.currentAoiGeoJson ≠ none) := by
  cases hc : c.currentAoiGeoJson with
  | none => simp [closeLoopClick, hc, displayMessage]
  | some cur =>
    cases hf : cur.features with
    | nil => simp [closeLoopClick, hc, hf, displayMessage]
    | cons f rest =>
      by_cases h3 : f.geometry.coordinates.length < 3
      · simp [closeLoopClick, hc, hf, h3, displayMessage]
      · cases h0 : f.geometry.coordinates[0]? with
        | none => simp [closeLoopClick, hc, hf, h3, h0]
        | some first =>
          cases h1 : f.geometry.coordinates[f.geometry.coordinates.length - 1]? with
          | none => simp [closeLoopClick, hc, hf, h3, h0, h1]
          | some last =>
            by_cases heq : (first.lon == last.lon && first.lat == last.lat) = true
            · simp only [closeLoopClick, hc, hf, h3, h0, h1, heq]
              simp [updateUIState_aoi, updateUIState_seg, updateUIState_draw, displayMessage, hc]
            · simp only [closeLoopClick, hc, hf, h3, h0, h1, heq]
              simp [updateUIState, Outcome.andThen, displayMessage, hc]


theorem closeLoopCatch_core (b : Builtins) (m : JsString) (c : Ctrl) :
    (closeLoopCatch b m c).currentAoiGeoJson = c.currentAoiGeoJson ∧
    (closeLoopCatch b m c).segmentedGeoJson = c.segmentedGeoJson ∧
    (closeLoopCatch b m c).isAoiClosed = c.isAoiClosed ∧
    (closeLoopCatch b m c).draw = c.draw := by
  simp [closeLoopCatch, updateUIState_aoi, updateUIState_seg, updateUIState_closed,
    updateUIState_draw, displayMessage]

theorem closeLoopTry_shape (b : Builtins) (aoi : FeatureCollection) (fr : FetchResult)
    (c : Ctrl) (f : Feature) (rest : List Feature) (haoi : aoi.features = f :: rest) :
    (∃ m, closeLoopTry b aoi fr c = .threw m c) ∨
    ∃ c2, c2.segmentedGeoJson = c.segmentedGeoJson ∧ c2.currentAoiGeoJson = some aoi ∧
      c2.isAoiClosed = true ∧
      (c.draw.bind firstCoords ≠ none → c2.draw.bind firstCoords = firstCoords aoi.features) ∧
      closeLoopTry b aoi fr c = updateUIState b .finished_closed c2 := by
  cases fr with
  | rejected m => exact Or.inl ⟨m, rfl⟩
  | resolved r =>
    by_cases hok : r.ok = true
    swap
    · exact Or.inl ⟨_, by simp [closeLoopTry, hok]; rfl⟩
    by_cases hb : r.body = []
    · exact Or.inl ⟨_, by simp [closeLoopTry, hok, hb]; rfl⟩
    cases hp : b.JSON_parse r.body with
    | error m => exact Or.inl ⟨m, by simp [closeLoopTry, hok, hb, hp]⟩
    | ok stats =>
      cases hg : stats.get "is_closed" with
      | none => exact Or.inl ⟨_, by simp [closeLoopTry, hok, hb, hp, hg]; rfl⟩
      | some v =>
        right
        cases hd : c.draw with
        | none =>
          refine ⟨_, ?_, ?_, ?_, ?_, by
            simp [closeLoopTry, hok, hb, hp, hg, displayStats, addOrUpdateGeoJsonLayer_eq,
              updateDrawFeature, hd, Outcome.andThen, coordinatesLength, haoi]
            rfl⟩ <;> simp [hd]
        | some store =>
          cases store with
          | nil =>
            refine ⟨_, ?_, ?_, ?_, ?_, by
              simp [closeLoopTry, hok, hb, hp, hg, displayStats, addOrUpdateGeoJsonLayer_eq,
                updateDrawFeature, hd, Outcome.andThen, coordinatesLength, haoi]
              rfl⟩ <;> simp [hd, firstCoords]
          | cons d ds =>
            refine ⟨_, ?_, ?_, ?_, ?_, by
              simp [closeLoopTry, hok, hb, hp, hg, displayStats, addOrUpdateGeoJsonLayer_eq,
                updateDrawFeature, hd, Outcome.andThen, coordinatesLength, haoi]
              rfl⟩ <;> simp [hd, firstCoords, haoi]

theorem closeLoopResponse_core (b : Builtins) (aoi : FeatureCollection) (fr : FetchResult)
    (c : Ctrl) (f : Feature) (rest : List Feature) (haoi : aoi.features = f :: rest) :
    (closeLoopResponse b aoi fr c).segmentedGeoJson = c.segmentedGeoJson ∧
    (((closeLoopResponse b aoi fr c).currentAoiGeoJson = c.currentAoiGeoJson ∧
        (closeLoopResponse b aoi fr c).draw = c.draw) ∨
      ((closeLoopResponse b aoi fr c).currentAoiGeoJson = some aoi ∧
        (c.draw.bind firstCoords ≠ none →
          (closeLoopResponse b aoi fr c).draw.bind firstCoords = firstCoords aoi.features))) := by
  unfold closeLoopResponse
  rcases closeLoopTry_shape b aoi fr c f rest haoi with ⟨m, h⟩ | ⟨c2, hseg, hcur, _, hdraw, h⟩
  · rw [h]
    have hc := closeLoopCatch_core b m c
    exact ⟨hc.2.1, Or.inl ⟨hc.1, hc.2.2.2⟩⟩
  · rw [h]
    cases ho : updateUIState b .finished_closed c2 with
    | done c1 =>
      have e := outcome_done_ctrl _ _ ho
      simp only []
      subst e
      refine ⟨by simp [updateUIState_seg, hseg], Or.inr ⟨by simp [updateUIState_aoi, hcur], ?_⟩⟩
      intro hne
      simp [updateUIState_draw, hdraw hne]
    | threw m c1 =>
      have e := outcome_threw_ctrl _ _ _ ho
      have hc := closeLoopCatch_core b m c1
      simp only []
      subst e
      refine ⟨by rw [hc.2.1]; simp [updateUIState_seg, hseg],
        Or.inr ⟨by rw [hc.1]; simp [updateUIState_aoi, hcur], ?_⟩⟩
      intro hne
      rw [hc.2.2.2]
      simp [updateUIState_draw, hdraw hne]

theorem segmentCatch_core (b : Builtins) (m : JsString) (c : Ctrl) :
    (segmentCatch b m c).currentAoiGeoJson = c.currentAoiGeoJson ∧
    (segmentCatch b m c).segmentedGeoJson = .null ∧
    (segmentCatch b m c).isAoiClosed = c.isAoiClosed ∧
    (segmentCatch b m c).draw = c.draw := by
  simp [segmentCatch, updateUIState_aoi, updateUIState_seg, updateUIState_closed,
    updateUIState_draw, displayMessage]

theorem updateUIState_finishBtn_true (b : Builtins) (st : UIState) (c : Ctrl)
    (hst : st ≠ .draw_complete) : (updateUIState b st c).ctrl.finishBtnDisabled = true := by
  cases h : (updateUIState b st c).ctrl.finishBtnDisabled with
  | true => rfl
  | false => exact absurd ((updateUIState_finishBtn b st c).mp h) hst

theorem updateUIState_closeLoopBtn_true (b : Builtins) (st : UIState) (c : Ctrl)
    (hst : st ≠ .finished_open) : (updateUIState b st c).ctrl.closeLoopBtnDisabled = true := by
  cases h : (updateUIState b st c).ctrl.closeLoopBtnDisabled with
  | true => rfl
  | false => exact absurd (updateUIState_closeLoopBtn b st c h) hst

/-- Showing a value either throws and leaves the state alone, or only replaces the
message. -/
theorem displayMessageValue_cases (b : Builtins) (text : JsVal) (type : String) (c : Ctrl) :
    (∃ m, displayMessageValue b text type c = .threw m c) ∨
    ∃ msg, displayMessageValue b text type c = .done { c with messagesDiv := msg } := by
  cases text with
  | undefined => exact Or.inl ⟨_, rfl⟩
  | null => exact Or.inl ⟨_, rfl⟩
  | bool v => exact Or.inr ⟨_, rfl⟩
  | num x => exact Or.inr ⟨_, rfl⟩
  | str s => exact Or.inr ⟨_, rfl⟩
  | object json asString over =>
    cases over with
    | true => exact Or.inl ⟨_, rfl⟩
    | false => exact Or.inr ⟨_, rfl⟩

theorem segmentTry_shape (b : Builtins) (fr : FetchResult) (c : Ctrl) :
    ∃ c2, c2.currentAoiGeoJson = c.currentAoiGeoJson ∧ c2.isAoiClosed = c.isAoiClosed ∧
      c2.draw = c.draw ∧
      ((∃ m, segmentTry b fr c = .threw m c2) ∨
        segmentTry b fr c = updateUIState b .segmented c2) := by
  cases fr with
  | rejected m => exact ⟨c, rfl, rfl, rfl, Or.inl ⟨m, rfl⟩⟩
  | resolved r =>
    by_cases hok : r.ok = true
    swap
    · exact ⟨c, rfl, rfl, rfl, Or.inl ⟨_, by simp [segmentTry, hok]; rfl⟩⟩
    by_cases hb : r.body = []
    · exact ⟨c, rfl, rfl, rfl, Or.inl ⟨_, by simp [segmentTry, hok, hb]; rfl⟩⟩
    cases hp : b.JSON_parse r.body with
    | error m => exact ⟨c, rfl, rfl, rfl, Or.inl ⟨m, by simp [segmentTry, hok, hb, hp]⟩⟩
    | ok result =>
      cases hg : result.get "segmented_geojson" with
      | none => exact ⟨c, rfl, rfl, rfl, Or.inl ⟨_, by simp [segmentTry, hok, hb, hp, hg]; rfl⟩⟩
      | some v =>
        rcases displayMessageValue_cases b
          (if ((result.get "message").getD .undefined).truthy = true
            then (result.get "message").getD .undefined else .str "Segmentation complete.")
          "success" { c with segmentedGeoJson := v } with ⟨m, hm⟩ | ⟨msg, hm⟩
        · refine ⟨{ c with segmentedGeoJson := v }, rfl, rfl, rfl, Or.inl ⟨m, ?_⟩⟩
          simp [segmentTry, hok, hb, hp, hg, hm, Outcome.andThen]
        · by_cases hfn : ((result.get "filename").getD .undefined).truthy = true
          · refine ⟨_, ?_, ?_, ?_, Or.inr (by
              simp [segmentTry, hok, hb, hp, hg, hm, hfn, Outcome.andThen,
                addOrUpdateGeoJsonLayer_eq]
              rfl)⟩ <;> simp
          · refine ⟨_, ?_, ?_, ?_, Or.inr (by
              simp [segmentTry, hok, hb, hp, hg, hm, hfn, Outcome.andThen,
                addOrUpdateGeoJsonLayer_eq]
              rfl)⟩ <;> simp

theorem segmentResponse_core (b : Builtins) (fr : FetchResult) (c : Ctrl) :
    (segmentResponse b fr c).currentAoiGeoJson = c.currentAoiGeoJson ∧
    (segmentResponse b fr c).isAoiClosed = c.isAoiClosed ∧
    (segmentResponse b fr c).draw = c.draw ∧
    (segmentResponse b fr c).finishBtnDisabled = true ∧
    (segmentResponse b fr c).closeLoopBtnDisabled = true ∧
    ((segmentResponse b fr c).segmentedGeoJson = .null ∨
      (segmentResponse b fr c).uiState = .segmented) := by
  unfold segmentResponse
  obtain ⟨c2, hcur, hcl, hdraw, h⟩ := segmentTry_shape b fr c
  rcases h with ⟨m, h⟩ | h
  · rw [h]
    have hc := segmentCatch_core b m c2
    refine ⟨hc.1.trans hcur, hc.2.2.1.trans hcl, hc.2.2.2.trans hdraw, ?_, ?_, Or.inl hc.2.1⟩
    · exact updateUIState_finishBtn_true b .finished_closed _ (by simp)
    · exact updateUIState_closeLoopBtn_true b .finished_closed _ (by simp)
  · rw [h]
    have hd : updateUIState b .segmented c2 = .done (updateUIState b .segmented c2).ctrl := by
      simp [updateUIState, Outcome.ctrl]
    rw [hd]
    simp only []
    refine ⟨by simp [updateUIState_aoi, hcur], by simp [updateUIState_closed, hcl],
      by simp [updateUIState_draw, hdraw], ?_, ?_, Or.inr ?_⟩
    · exact updateUIState_finishBtn_true b .segmented _ (by simp)
    · exact updateUIState_closeLoopBtn_true b .segmented _ (by simp)
    · simp [updateUIState, Outcome.ctrl]

/-! ## C9: the segmentation result and its AOI -/

/-- C9 fails as stated: the sketch is moved while the segment request is in flight, the
response then stores a segmentation result although no processed AOI exists. -/
theorem C9_stale_response_counterexample :
    ¬ ∀ s, Reachable sampleBuiltins s → SegmentationBacked s.ctrl := by
  intro h
  have h1 := h _ (reachable_run sampleBuiltins staleSegmentTrace _
    (Reachable.init samplePage)) (by decide)
  obtain ⟨fc, n, hc, _⟩ := h1
  have e : (run sampleBuiltins staleSegmentTrace
      (initialSys sampleBuiltins samplePage)).ctrl.currentAoiGeoJson = none := by decide
  rw [e] at hc
  exact absurd hc (by simp)

theorem step_response_idle (b : Builtins) (i : Nat) (fr : FetchResult) (s : Sys)
    (hin : s.inFlight = []) : step b (.response i fr) s = s := by
  simp [step, hin]

/-- The response to the only request in flight runs its continuation. -/
theorem step_response_single (b : Builtins) (fr : FetchResult) (s : Sys) (p : Pending)
    (hfl : s.inFlight = [p]) :
    step b (.response 0 fr) s = { ctrl := resume b p fr s.ctrl, inFlight := [] } := by
  simp [step, hfl]

theorem segCore_of_null (c : Ctrl) (h : c.segmentedGeoJson = .null) : SegCore c :=
  ⟨fun hne => absurd h hne, fun _ => h, fun _ => h⟩

theorem segCore_quiet (c c' : Ctrl) (hc : SegCore c) (hq : QuietEffect c c') : SegCore c' := by
  rcases hq with ⟨_, hnull⟩ | ⟨haoi, hseg, hcl, _, hbtn⟩
  · exact segCore_of_null c' hnull
  · obtain ⟨hsb, hfin, hloop⟩ := hc
    by_cases hnull : c.segmentedGeoJson = .null
    · exact segCore_of_null c' (by rw [hseg]; exact hnull)
    · obtain ⟨fc, n, h1, h2, h3, h4⟩ := hsb hnull
      rcases hbtn with hnone | ⟨hb1, hb2⟩
      · rw [h1] at hnone; exact absurd hnone (by simp)
      · refine ⟨fun _ => ⟨fc, n, by rw [haoi]; exact h1, by rw [hcl]; exact h2, h3, h4⟩, ?_, ?_⟩
        · intro h; rw [hseg]; exact hfin (by rw [← hb1]; exact h)
        · intro h; rw [hseg]; exact hloop (by rw [← hb2]; exact h)

theorem segInv_onDraw (store : List Feature) (handler : Ctrl → Ctrl) (s : Sys)
    (hs : SegInv s) (hin : s.inFlight = [])
    (hh : ∀ c, QuietEffect c (handler c)) : SegInv (onDraw store handler s) := by
  unfold onDraw
  cases hd : s.ctrl.draw with
  | none => exact hs
  | some _ =>
    refine ⟨?_, by simp [hin, SegPending]⟩
    have hc : SegCore { s.ctrl with draw := some store } := hs.1
    exact segCore_quiet _ _ hc (hh _)

theorem onDrawUpdate_quiet (b : Builtins) (features : List Feature) (action : String) (c : Ctrl) :
    QuietEffect c (onDrawUpdate b features action c) := by
  rcases onDrawUpdate_core b features action c with h | ⟨_, _, _, h⟩
  · exact Or.inl h
  · rw [h]; exact Or.inr ⟨rfl, rfl, rfl, rfl, Or.inr ⟨rfl, rfl⟩⟩

theorem onShowOriginalChange_quiet (checked : Bool) (c : Ctrl) :
    QuietEffect c (onShowOriginalChange checked c) := by
  unfold onShowOriginalChange
  right
  cases hm : c.map with
  | none => simp [hm]
  | some m => cases hl : m.originalLayer <;> simp [hm, hl]

theorem onShowSegmentedChange_quiet (checked : Bool) (c : Ctrl) :
    QuietEffect c (onShowSegmentedChange checked c) := by
  unfold onShowSegmentedChange
  right
  cases hm : c.map with
  | none => simp [hm]
  | some m => cases hl : m.segmentedLayer <;> simp [hm, hl]

theorem segInv_init (b : Builtins) (dom : Ctrl) : SegInv (initialSys b dom) := by
  refine ⟨segCore_of_null _ ?_, trivial⟩
  simp [initialSys, onMapLoad, updateUIState_seg]

/-- An event handled while nothing is in flight keeps the invariant; a click that sends a
request leaves that request as the only one in flight. -/
theorem segInv_event (b : Builtins) (e : Event) (s : Sys) (hs : SegInv s)
    (hin : s.inFlight = []) : SegInv (step b e s) := by
  cases e with
  | drawCreate store features =>
    exact segInv_onDraw store (onDrawCreate b features) s hs hin
      (fun c => Or.inl (onDrawCreate_core b features c))
  | drawDelete store =>
    exact segInv_onDraw store (onDrawDelete b) s hs hin
      (fun c => Or.inl (onDrawDelete_core b c))
  | drawUpdate store features action =>
    exact segInv_onDraw store (onDrawUpdate b features action) s hs hin
      (fun c => onDrawUpdate_quiet b features action c)
  | drawModechange store mode =>
    exact segInv_onDraw store (onDrawModechange b mode) s hs hin
      (fun c => onDrawModechange_quiet b mode c)
  | drawSelectionchange store features =>
    exact segInv_onDraw store (onDrawSelectionchange b features) s hs hin
      (fun c => onDrawSelectionchange_quiet b features c)
  | finishClick =>
    show SegInv (onClick s.ctrl.finishBtnDisabled (finishClick b) s)
    unfold onClick
    cases hdis : s.ctrl.finishBtnDisabled with
    | true => simpa using hs
    | false =>
      have hnull : s.ctrl.segmentedGeoJson = .null := hs.1.2.1 hdis
      simp only [Bool.false_eq_true, if_false]
      rcases finishClick_core b s.ctrl with ⟨hp, h⟩ | ⟨f, rest, _, hp, _, hseg, _⟩
      · have hnull1 : (finishClick b s.ctrl).1.segmentedGeoJson = .null := by
          rcases h with h | h
          · exact h.2
          · rw [h]; exact hnull
        exact ⟨segCore_of_null _ hnull1, by simp [hp, hin, SegPending]⟩
      · have hnull1 : (finishClick b s.ctrl).1.segmentedGeoJson = .null := hseg.trans hnull
        exact ⟨segCore_of_null _ hnull1, by simp [hp, hin, SegPending, hnull1]⟩
  | closeLoopClick =>
    show SegInv (onClick s.ctrl.closeLoopBtnDisabled (closeLoopClick b) s)
    unfold onClick
    cases hdis : s.ctrl.closeLoopBtnDisabled with
    | true => simpa using hs
    | false =>
      have hnull : s.ctrl.segmentedGeoJson = .null := hs.1.2.2 hdis
      simp only [Bool.false_eq_true, if_false]
      obtain ⟨_, hseg, _, hp⟩ := closeLoopClick_core b s.ctrl
      have hnull1 : (closeLoopClick b s.ctrl).1.segmentedGeoJson = .null := hseg.trans hnull
      rcases hp with hp | ⟨aoi, f, rest, hp, haoi, _⟩
      · exact ⟨segCore_of_null _ hnull1, by simp [hp, hin, SegPending]⟩
      · exact ⟨segCore_of_null _ hnull1, by simp [hp, hin, SegPending, hnull1, haoi]⟩
  | restartClick =>
    show SegInv (onClick s.ctrl.restartBtnDisabled (fun c => (restartClick b c, none)) s)
    unfold onClick
    cases hdis : s.ctrl.restartBtnDisabled with
    | true => simpa using hs
    | false =>
      simp only [Bool.false_eq_true, if_false]
      exact ⟨segCore_of_null _ (restartClick_core b s.ctrl).2, by simp [hin, SegPending]⟩
  | segmentClick =>
    show SegInv (onClick s.ctrl.segmentBtnDisabled (segmentClick b) s)
    unfold onClick
    cases hdis : s.ctrl.segmentBtnDisabled with
    | true => simpa using hs
    | false =>
      simp only [Bool.false_eq_true, if_false]
      rcases segmentClick_cases b s.ctrl with ⟨h, _⟩ | ⟨fc, n, hyes, h⟩
      · rcases h with h | ⟨text, h⟩
        · rw [h]; exact ⟨hs.1, by simp [hin, SegPending]⟩
        · rw [h]; exact ⟨hs.1, by simp [hin, SegPending]⟩
      · rw [h]
        have haoi : (displayMessage "Segmenting AoI..." "info"
            (updateUIState b .segmenting s.ctrl).ctrl).currentAoiGeoJson = some fc := by
          simp [displayMessage, updateUIState_aoi, hyes.1]
        have hcl : (displayMessage "Segmenting AoI..." "info"
            (updateUIState b .segmenting s.ctrl).ctrl).isAoiClosed = true := by
          simp [displayMessage, updateUIState_closed, hyes.2.1]
        refine ⟨⟨fun _ => ⟨fc, n, haoi, hcl, hyes.2.2.1, hyes.2.2.2.1⟩, ?_, ?_⟩, ?_⟩
        · intro hf
          have := updateUIState_finishBtn_true b .segmenting s.ctrl (by simp)
          simp [displayMessage, this] at hf
        · intro hf
          have := updateUIState_closeLoopBtn_true b .segmenting s.ctrl (by simp)
          simp [displayMessage, this] at hf
        · simp only [hin, List.nil_append, Option.toList, SegPending]
          exact ⟨n, haoi, hcl, hyes.2.2.1, hyes.2.2.2.1⟩
  | gridAreaInput value => exact hs
  | bufferKmInput value => exact hs
  | showOriginalChange checked =>
    exact ⟨segCore_quiet _ _ hs.1 (onShowOriginalChange_quiet checked s.ctrl),
      by simp [step, hin, SegPending]⟩
  | showSegmentedChange checked =>
    exact ⟨segCore_quiet _ _ hs.1 (onShowSegmentedChange_quiet checked s.ctrl),
      by simp [step, hin, SegPending]⟩
  | response i fr2 =>
    rw [step_response_idle b i fr2 s hin]
    exact hs

/-- The arrival of the response keeps the invariant and leaves nothing in flight. -/
theorem segInv_response (b : Builtins) (fr : FetchResult) (s : Sys) (hs : SegInv s) :
    SegInv (step b (.response 0 fr) s) := by
  obtain ⟨hcore, hpend⟩ := hs
  cases hfl : s.inFlight with
  | nil =>
    rw [step_response_idle b 0 fr s hfl]
    exact ⟨hcore, by rw [hfl]; trivial⟩
  | cons p rest =>
    rw [hfl] at hpend
    cases rest with
    | cons q rest2 => cases p <;> simp [SegPending] at hpend
    | nil =>
      rw [step_response_single b fr s p hfl]
      refine ⟨?_, trivial⟩
      cases p with
      | finish aoi =>
        have hnull : s.ctrl.segmentedGeoJson = .null := hpend
        apply segCore_of_null
        rcases (finishResponse_core b aoi fr s.ctrl).1 with h | h
        · exact h.trans hnull
        · exact h
      | closeLoop aoi =>
        obtain ⟨⟨f, rest, haoi⟩, hnull⟩ : (∃ f rest, aoi.features = f :: rest) ∧
            s.ctrl.segmentedGeoJson = .null := hpend
        apply segCore_of_null
        exact ((closeLoopResponse_core b aoi fr s.ctrl f rest haoi).1).trans hnull
      | segment fc g k =>
        obtain ⟨n, haoi, hcl, hn, h4⟩ : ∃ n, s.ctrl.currentAoiGeoJson = some fc ∧
            s.ctrl.isAoiClosed = true ∧ coordinatesLength fc = some n ∧ 4 ≤ n := hpend
        obtain ⟨h1, h2, _, h4b, h5, _⟩ := segmentResponse_core b fr s.ctrl
        refine ⟨fun _ => ⟨fc, n, h1.trans haoi, h2.trans hcl, hn, h4⟩, ?_, ?_⟩
        · intro hf
          have hf2 : (segmentResponse b fr s.ctrl).finishBtnDisabled = false := hf
          rw [h4b] at hf2; exact absurd hf2 (by simp)
        · intro hf
          have hf2 : (segmentResponse b fr s.ctrl).closeLoopBtnDisabled = false := hf
          rw [h5] at hf2; exact absurd hf2 (by simp)

/-- C9, amended: in every state reached when each response arrives before the next event,
the states between a click and its response included, whenever the segmentation result
is present, the processed AOI is present, its closed flag is set and it has at least 4
coordinates. -/
theorem C9_sequential_segmentation_backed (b : Builtins) (s : Sys)
    (h : SeqReachable b (fun _ _ => True) s) : SegmentationBacked s.ctrl := by
  have : SegInv s := by
    induction h with
    | init dom => exact segInv_init b dom
    | event e s _ hin _ ih => exact segInv_event b e s ih hin
    | response fr s _ ih => exact segInv_response b fr s ih
  exact this.1.1

/-- Witness of C9: after drawing, finishing and segmenting the closed ring, a second
segment click is in flight, the earlier result is present and it is backed by the
processed ring. -/
theorem C9_sequential_segmentation_backed_witness :
    sampleResegmenting.inFlight.length = 1 ∧
    sampleResegmenting.ctrl.segmentedGeoJson ≠ .null ∧
    SegmentationBacked sampleResegmenting.ctrl :=
  ⟨by decide, by decide,
    C9_sequential_segmentation_backed sampleBuiltins sampleResegmenting
      (SeqReachable.event _ _
        (SeqReachable.response _ _
          (SeqReachable.event _ _
            (SeqReachable.response _ _
              (SeqReachable.event _ _
                (SeqReachable.response _ _
                  (SeqReachable.event _ _ (SeqReachable.init samplePage) rfl trivial))
                (by decide) trivial))
            (by decide) trivial))
        (by decide) trivial)⟩

/-! ## C2: the processed AOI and the sketch -/

/-- C2 fails as stated: the sketch is moved while the finish request is in flight, the
response then installs the processed AOI of the old geometry. -/
theorem C2_stale_response_counterexample :
    ¬ ∀ s, Reachable sampleBuiltins s → AoiMatchesSurface s.ctrl := by
  intro h
  have h1 := h _ (reachable_run sampleBuiltins staleFinishTrace _
    (Reachable.init samplePage)) { features := [openLine] } (by decide)
  obtain ⟨coords, hc1, hc2⟩ := h1
  have e1 : coords = openLine.geometry.coordinates := by
    have : firstCoords ({ features := [openLine] } : FeatureCollection).features
        = some openLine.geometry.coordinates := rfl
    rw [this] at hc1; exact (Option.some.inj hc1).symm
  have e2 : (run sampleBuiltins staleFinishTrace
      (initialSys sampleBuiltins samplePage)).ctrl.draw.bind firstCoords
        = some movedLine.geometry.coordinates := by decide
  rw [e2, e1] at hc2
  exact absurd (Option.some.inj hc2) (by decide)

theorem aoiMatches_of_none (c : Ctrl) (h : c.currentAoiGeoJson = none) : AoiMatchesSurface c := by
  intro fc hfc
  rw [h] at hfc
  exact absurd hfc (by simp)

theorem aoiMatches_congr (c c' : Ctrl) (haoi : c'.currentAoiGeoJson = c.currentAoiGeoJson)
    (hdraw : c'.draw.bind firstCoords = c.draw.bind firstCoords)
    (h : AoiMatchesSurface c) : AoiMatchesSurface c' := by
  intro fc hfc
  rw [haoi] at hfc
  obtain ⟨coords, h1, h2⟩ := h fc hfc
  exact ⟨coords, h1, by rw [hdraw]; exact h2⟩

theorem aoiMatches_quiet (c c' : Ctrl) (hq : QuietEffect c c') (h : AoiMatchesSurface c) :
    AoiMatchesSurface c' := by
  rcases hq with ⟨hnone, _⟩ | ⟨haoi, _, _, hdraw, _⟩
  · exact aoiMatches_of_none c' hnone
  · exact aoiMatches_congr c c' haoi (by rw [hdraw]) h

theorem aoiInv_onDraw (store : List Feature) (handler : Ctrl → Ctrl) (s : Sys)
    (hs : AoiInv s) (hin : s.inFlight = [])
    (hh : AoiMatchesSurface { s.ctrl with draw := some store } →
      AoiMatchesSurface (handler { s.ctrl with draw := some store }))
    (hstore : (∃ fc, (handler { s.ctrl with draw := some store }).currentAoiGeoJson = some fc) →
      firstCoords store = s.ctrl.draw.bind firstCoords) :
    AoiInv (onDraw store handler s) := by
  unfold onDraw
  cases hd : s.ctrl.draw with
  | none => exact hs
  | some old =>
    refine ⟨?_, by simp [hin, AoiPending]⟩
    simp only []
    by_cases hex : ∃ fc, (handler { s.ctrl with draw := some store }).currentAoiGeoJson = some fc
    · apply hh
      exact aoiMatches_congr s.ctrl _ rfl (by simp [hstore hex]) hs.1
    · apply aoiMatches_of_none
      cases hc : (handler { s.ctrl with draw := some store }).currentAoiGeoJson with
      | none => rfl
      | some fc => exact absurd ⟨fc, hc⟩ hex

theorem aoiInv_init (b : Builtins) (dom : Ctrl) : AoiInv (initialSys b dom) := by
  refine ⟨aoiMatches_of_none _ ?_, trivial⟩
  simp [initialSys, onMapLoad, updateUIState_aoi]

/-- An event handled while nothing is in flight keeps the invariant; a click that sends a
request leaves that request as the only one in flight. -/
theorem aoiInv_event (b : Builtins) (e : Event) (s : Sys) (hs : AoiInv s)
    (hin : s.inFlight = []) (henv : surfaceContract s.ctrl e) : AoiInv (step b e s) := by
  cases e with
  | drawCreate store features =>
    exact aoiInv_onDraw store _ s hs hin
      (fun _ => aoiMatches_of_none _ (onDrawCreate_core b features _).1)
      (fun ⟨fc, hfc⟩ => by rw [(onDrawCreate_core b features _).1] at hfc; simp at hfc)
  | drawDelete store =>
    exact aoiInv_onDraw store _ s hs hin
      (fun _ => aoiMatches_of_none _ (onDrawDelete_core b _).1)
      (fun ⟨fc, hfc⟩ => by rw [(onDrawDelete_core b _).1] at hfc; simp at hfc)
  | drawUpdate store features action =>
    show AoiInv (onDraw store (onDrawUpdate b features action) s)
    apply aoiInv_onDraw store _ s hs hin
    · exact aoiMatches_quiet _ _ (onDrawUpdate_quiet b features action _)
    · rintro ⟨fc, hfc⟩
      rcases onDrawUpdate_core b features action { s.ctrl with draw := some store } with
        h | ⟨h1, h2, h3, _⟩
      · rw [h.1] at hfc; simp at hfc
      · exact henv ⟨h1, h2, h3⟩
  | drawModechange store mode =>
    exact aoiInv_onDraw store _ s hs hin
      (aoiMatches_quiet _ _ (onDrawModechange_quiet b mode _)) (fun _ => henv)
  | drawSelectionchange store features =>
    exact aoiInv_onDraw store _ s hs hin
      (aoiMatches_quiet _ _ (onDrawSelectionchange_quiet b features _)) (fun _ => henv)
  | finishClick =>
    show AoiInv (onClick s.ctrl.finishBtnDisabled (finishClick b) s)
    unfold onClick
    cases hdis : s.ctrl.finishBtnDisabled with
    | true => simpa using hs
    | false =>
      simp only [Bool.false_eq_true, if_false]
      rcases finishClick_core b s.ctrl with ⟨hp, h⟩ | ⟨f, rest, hdraw, hp, haoi1, _, hd1⟩
      · refine ⟨?_, by simp [hp, hin, AoiPending]⟩
        rcases h with h | h
        · exact aoiMatches_of_none _ h.1
        · rw [h]; exact hs.1
      · refine ⟨aoiMatches_congr s.ctrl _ haoi1 (by rw [hd1]) hs.1, ?_⟩
        simp only [hp, hin, List.nil_append, Option.toList, AoiPending]
        exact ⟨f, rest, hd1.trans hdraw, rfl⟩
  | closeLoopClick =>
    show AoiInv (onClick s.ctrl.closeLoopBtnDisabled (closeLoopClick b) s)
    unfold onClick
    cases hdis : s.ctrl.closeLoopBtnDisabled with
    | true => simpa using hs
    | false =>
      simp only [Bool.false_eq_true, if_false]
      obtain ⟨haoi1, _, hdraw1, hp⟩ := closeLoopClick_core b s.ctrl
      have h1 : AoiMatchesSurface (closeLoopClick b s.ctrl).1 :=
        aoiMatches_congr s.ctrl _ haoi1 (by rw [hdraw1]) hs.1
      rcases hp with hp | ⟨aoi, f, rest, hp, haoi, hsome⟩
      · exact ⟨h1, by simp [hp, hin, AoiPending]⟩
      · refine ⟨h1, ?_⟩
        simp only [hp, hin, List.nil_append, Option.toList, AoiPending]
        exact ⟨⟨f, rest, haoi⟩, by rw [haoi1]; exact hsome⟩
  | restartClick =>
    show AoiInv (onClick s.ctrl.restartBtnDisabled (fun c => (restartClick b c, none)) s)
    unfold onClick
    cases hdis : s.ctrl.restartBtnDisabled with
    | true => simpa using hs
    | false =>
      simp only [Bool.false_eq_true, if_false]
      exact ⟨aoiMatches_of_none _ (restartClick_core b s.ctrl).1, by simp [hin, AoiPending]⟩
  | segmentClick =>
    show AoiInv (onClick s.ctrl.segmentBtnDisabled (segmentClick b) s)
    unfold onClick
    cases hdis : s.ctrl.segmentBtnDisabled with
    | true => simpa using hs
    | false =>
      simp only [Bool.false_eq_true, if_false]
      rcases segmentClick_cases b s.ctrl with ⟨h, _⟩ | ⟨fc, n, hyes, h⟩
      · rcases h with h | ⟨text, h⟩
        · rw [h]; exact ⟨hs.1, by simp [hin, AoiPending]⟩
        · rw [h]; exact ⟨hs.1, by simp [hin, AoiPending]⟩
      · rw [h]
        refine ⟨aoiMatches_congr s.ctrl _ ?_ ?_ hs.1, ?_⟩
        · simp [displayMessage, updateUIState_aoi]
        · simp [displayMessage, updateUIState_draw]
        · simp [hin, AoiPending]
  | gridAreaInput value => exact hs
  | bufferKmInput value => exact hs
  | showOriginalChange checked =>
    exact ⟨aoiMatches_quiet _ _ (onShowOriginalChange_quiet checked s.ctrl) hs.1,
      by simp [step, hin, AoiPending]⟩
  | showSegmentedChange checked =>
    exact ⟨aoiMatches_quiet _ _ (onShowSegmentedChange_quiet checked s.ctrl) hs.1,
      by simp [step, hin, AoiPending]⟩
  | response i fr2 =>
    rw [step_response_idle b i fr2 s hin]
    exact hs

/-- The arrival of the response keeps the invariant and leaves nothing in flight. -/
theorem aoiInv_response (b : Builtins) (fr : FetchResult) (s : Sys) (hs : AoiInv s) :
    AoiInv (step b (.response 0 fr) s) := by
  obtain ⟨hmatch, hpend⟩ := hs
  cases hfl : s.inFlight with
  | nil =>
    rw [step_response_idle b 0 fr s hfl]
    exact ⟨hmatch, by rw [hfl]; trivial⟩
  | cons p rest =>
    rw [hfl] at hpend
    cases rest with
    | cons q rest2 => cases p <;> simp [AoiPending] at hpend
    | nil =>
      rw [step_response_single b fr s p hfl]
      refine ⟨?_, trivial⟩
      cases p with
      | finish aoi =>
        obtain ⟨f, rest, hdraw, haoi⟩ : ∃ f rest, s.ctrl.draw = some (f :: rest) ∧
            aoi = { features := [f] } := hpend
        subst haoi
        rcases (finishResponse_core b { features := [f] } fr s.ctrl).2 with h | h
        · exact aoiMatches_of_none _ h
        · intro fc hfc
          have hfc2 : (finishResponse b { features := [f] } fr s.ctrl).currentAoiGeoJson
              = some fc := hfc
          rw [h.1] at hfc2
          cases hfc2
          refine ⟨f.geometry.coordinates, rfl, ?_⟩
          show (finishResponse b { features := [f] } fr s.ctrl).draw.bind firstCoords = _
          rw [h.2, hdraw]; rfl
      | closeLoop aoi =>
        obtain ⟨⟨f, rest, haoi⟩, hsome⟩ : (∃ f rest, aoi.features = f :: rest) ∧
            s.ctrl.currentAoiGeoJson ≠ none := hpend
        rcases (closeLoopResponse_core b aoi fr s.ctrl f rest haoi).2 with h | h
        · exact aoiMatches_congr s.ctrl _ h.1 (by
            show (closeLoopResponse b aoi fr s.ctrl).draw.bind firstCoords = _
            rw [h.2]) hmatch
        · intro fc hfc
          have hfc2 : (closeLoopResponse b aoi fr s.ctrl).currentAoiGeoJson = some fc := hfc
          rw [h.1] at hfc2
          cases hfc2
          have hne : s.ctrl.draw.bind firstCoords ≠ none := by
            cases hc : s.ctrl.currentAoiGeoJson with
            | none => exact absurd hc hsome
            | some cur =>
              obtain ⟨coords, _, h2⟩ := hmatch cur hc
              rw [h2]; simp
          refine ⟨f.geometry.coordinates, by simp [firstCoords, haoi], ?_⟩
          show (closeLoopResponse b aoi fr s.ctrl).draw.bind firstCoords = _
          rw [h.2 hne]; simp [firstCoords, haoi]
      | segment fc g k =>
        obtain ⟨h1, _, h3, _⟩ := segmentResponse_core b fr s.ctrl
        exact aoiMatches_congr s.ctrl _ h1 (by
          show (segmentResponse b fr s.ctrl).draw.bind firstCoords = _
          rw [h3]) hmatch

/-- C2, amended: in every state reached when each response arrives before the next event,
the states between a click and its response included, and with the drawing surface
keeping the first feature's coordinates across mode changes, selection changes and
non-editing updates, the processed AOI, when present, has the coordinates of the first
feature held by the drawing surface. -/
theorem C2_sequential_aoi_matches_surface (b : Builtins) (s : Sys)
    (h : SeqReachable b surfaceContract s) : AoiMatchesSurface s.ctrl := by
  have : AoiInv s := by
    induction h with
    | init dom => exact aoiInv_init b dom
    | event e s _ hin henv ih => exact aoiInv_event b e s ih hin henv
    | response fr s _ ih => exact aoiInv_response b fr s ih
  exact this.1

/-- Witness of C2: after drawing and finishing the open line, the close-loop request is
in flight, the processed AOI is present and it matches the surface. -/
theorem C2_sequential_aoi_matches_surface_witness :
    sampleClosing.inFlight.length = 1 ∧
    sampleClosing.ctrl.currentAoiGeoJson = some { features := [openLine] } ∧
    AoiMatchesSurface sampleClosing.ctrl :=
  ⟨by decide, by decide,
    C2_sequential_aoi_matches_surface sampleBuiltins sampleClosing
      (SeqReachable.event _ _
        (SeqReachable.response _ _
          (SeqReachable.event _ _
            (SeqReachable.response _ _
              (SeqReachable.event _ _ (SeqReachable.init samplePage) rfl trivial))
            (by decide) trivial))
        (by decide) trivial)⟩

/-! ## C11: a finish request that fails -/

/-- On a failing response the `try` block of the finish handler throws before it has
touched the state. -/
theorem finishTry_fails (b : Builtins) (aoi : FeatureCollection) (fr : FetchResult) (c : Ctrl)
    (hfail : RequestFails b fr) : ∃ message, finishTry b aoi fr c = .threw message c := by
  cases fr with
  | rejected m => exact ⟨m, rfl⟩
  | resolved r =>
    by_cases hok : r.ok = true
    swap
    · exact ⟨_, by simp [finishTry, hok]; rfl⟩
    by_cases hb : r.body = []
    · exact ⟨_, by simp [finishTry, hok, hb]; rfl⟩
    rcases hfail with h | h | ⟨m, h⟩
    · rw [h] at hok; exact absurd hok (by simp)
    · exact absurd h hb
    · exact ⟨m, by simp [finishTry, hok, hb, h]⟩

/-- C11: when the finish request fails (transport error, non-2xx status, empty body on a
2xx response, unparsable body), whatever the state the response meets, the processed AOI
is absent and the closed flag false afterwards; if the draw store still holds a feature
the controller is in `draw_complete` with the finish button enabled, otherwise it is in
`initial`. -/
theorem C11_finish_failure (b : Builtins) (aoi : FeatureCollection) (fr : FetchResult)
    (c : Ctrl) (hfail : RequestFails b fr) :
    (finishResponse b aoi fr c).currentAoiGeoJson = none ∧
    (finishResponse b aoi fr c).isAoiClosed = false ∧
    ((∃ f rest, c.draw = some (f :: rest)) →
      (finishResponse b aoi fr c).uiState = .draw_complete ∧
      (finishResponse b aoi fr c).finishBtnDisabled = false) ∧
    ((¬ ∃ f rest, c.draw = some (f :: rest)) →
      (finishResponse b aoi fr c).uiState = .initial) := by
  obtain ⟨m, h⟩ := finishTry_fails b aoi fr c hfail
  unfold finishResponse
  rw [h]
  simp only []
  cases hd : c.draw with
  | none =>
    simp [finishCatch, hd, displayMessage, updateUIState, Outcome.ctrl, clearMapLayersAndData_eq]
  | some store =>
    cases store with
    | nil =>
      simp [finishCatch, hd, displayMessage, updateUIState, Outcome.ctrl,
        clearMapLayersAndData_eq]
    | cons f rest =>
      simp [finishCatch, hd, displayMessage, updateUIState, Outcome.ctrl]

/-- Witness of C11: a 500 response while the open line is still on the surface leads back
to `draw_complete`. -/
theorem C11_finish_failure_witness :
    (finishResponse sampleBuiltins { features := [openLine] } (.resolved serverError)
      { samplePage with draw := some [openLine] }).uiState = .draw_complete :=
  ((C11_finish_failure sampleBuiltins { features := [openLine] } (.resolved serverError)
    { samplePage with draw := some [openLine] } (Or.inl (by decide))).2.2.1
      ⟨openLine, [], rfl⟩).1

/-! ## C12: a segment request that succeeds -/

/-- The ghost field holds the argument of the call, also when the call throws. -/
theorem updateUIState_uiState (b : Builtins) (st : UIState) (c : Ctrl) :
    (updateUIState b st c).ctrl.uiState = st := by
  cases st
  case finished_open =>
    cases hc : c.currentAoiGeoJson with
    | none => simp [updateUIState, Outcome.ctrl, displayMessage, hc]
    | some fc =>
      cases hn : coordinatesLength fc <;>
        simp [updateUIState, Outcome.ctrl, displayMessage, hc, hn]
  case finished_closed =>
    cases hc : c.currentAoiGeoJson with
    | none => simp [updateUIState, Outcome.ctrl, displayMessage, hc]
    | some fc =>
      cases hn : coordinatesLength fc with
      | none => simp [updateUIState, Outcome.ctrl, displayMessage, hc, hn]
      | some n =>
        by_cases h4 : n < 4 <;> simp [updateUIState, Outcome.ctrl, displayMessage, hc, hn, h4]
  all_goals simp [updateUIState, Outcome.ctrl, displayMessage, clearMapLayersAndData_eq]

/-- Only `initial` touches the download link. -/
theorem updateUIState_link (b : Builtins) (st : UIState) (c : Ctrl) :
    (updateUIState b st c).ctrl.downloadLinkDiv
      = if st = .initial then [] else c.downloadLinkDiv := by
  cases st
  case finished_open =>
    cases hc : c.currentAoiGeoJson with
    | none => simp [updateUIState, Outcome.ctrl, displayMessage, hc]
    | some fc =>
      cases hn : coordinatesLength fc <;>
        simp [updateUIState, Outcome.ctrl, displayMessage, hc, hn]
  case finished_closed =>
    cases hc : c.currentAoiGeoJson with
    | none => simp [updateUIState, Outcome.ctrl, displayMessage, hc]
    | some fc =>
      cases hn : coordinatesLength fc with
      | none => simp [updateUIState, Outcome.ctrl, displayMessage, hc, hn]
      | some n =>
        by_cases h4 : n < 4 <;> simp [updateUIState, Outcome.ctrl, displayMessage, hc, hn, h4]
  all_goals simp [updateUIState, Outcome.ctrl, displayMessage, clearMapLayersAndData_eq]

/-- An accepted segment click: the state it leaves and the request it sends. -/
theorem segmentClick_accepts (b : Builtins) (c : Ctrl) (fc : FeatureCollection) (n : Nat)
    (hcur : c.currentAoiGeoJson = some fc) (hclosed : c.isAoiClosed = true)
    (hn : coordinatesLength fc = some n) (h4 : 4 ≤ n)
    (hg : (b.parseFloat c.gridAreaInput).Positive)
    (hk : (b.parseFloat c.bufferKmInput).NonNegative) :
    segmentClick b c =
      (displayMessage "Segmenting AoI..." "info" (updateUIState b .segmenting c).ctrl,
        some (.segment fc (b.parseFloat c.gridAreaInput) (b.parseFloat c.bufferKmInput))) := by
  rcases segmentClick_cases b c with ⟨_, hno⟩ | ⟨fc2, n2, hyes, h⟩
  · exact absurd ⟨fc, n, hcur, hclosed, hn, h4, hg, hk⟩ hno
  · have hfc : fc2 = fc := by
      have h1 := hyes.1
      rw [hcur] at h1
      exact (Option.some.inj h1).symm
    rw [h, hfc]

/-- The closing tag of the download link is not empty. -/
theorem closingTag_ne_nil : utf16 "</a>" ≠ [] := by decide

/-- C12 fails as stated: the segment click is accepted and the response is a 200 response
whose `message` is an object with `length` 501; `displayMessage` calls `substring` on it,
which throws, and the `catch` block clears the result and ends in `finished_closed`. -/
theorem C12_counterexample :
    (segmentClick sampleBuiltins sampleFinishedClosed.ctrl).2
      = some (.segment { features := [closedRing] } (.fin 20) (.fin 0)) ∧
    lengthyMessageResult.ok = true ∧
    sampleBuiltins.JSON_parse lengthyMessageResult.body
      = .ok (.obj [("segmented_geojson", .object "\x7b\x7d" "[object Object]" false),
                   ("message", .object "\x7b\"length\":501\x7d" "[object Object]" true)]) ∧
    (segmentResponse sampleBuiltins (.resolved lengthyMessageResult)
      (segmentClick sampleBuiltins sampleFinishedClosed.ctrl).1).uiState = .finished_closed ∧
    (segmentResponse sampleBuiltins (.resolved lengthyMessageResult)
      (segmentClick sampleBuiltins sampleFinishedClosed.ctrl).1).segmentedGeoJson = .null :=
  ⟨by decide, by decide, rfl, by decide, by decide⟩

/-- C12, amended: when the segment click is accepted and the response is a 2xx response
with a non-empty body that parses to a result whose `message` is not an object or array
with `length` over 500, then, whatever state `c2` the response meets, the controller
stores the `segmented_geojson` of the result, leaves the processed AOI and the closed flag
as the response found them and ends in `segmented`; the download link is non-empty exactly
when the result carries a (truthy) `filename`, and then it is the anchor whose target is
`/download/` followed by that file name.  The click leaves the processed AOI and the
closed flag alone, so with no event between click and response they are as before the
click. -/
theorem C12_segment_success (b : Builtins) (c : Ctrl) (fc : FeatureCollection) (n : Nat)
    (r : Response) (result : Parsed) (segmented_geojson : JsVal)
    (hcur : c.currentAoiGeoJson = some fc) (hclosed : c.isAoiClosed = true)
    (hn : coordinatesLength fc = some n) (h4 : 4 ≤ n)
    (hg : (b.parseFloat c.gridAreaInput).Positive)
    (hk : (b.parseFloat c.bufferKmInput).NonNegative)
    (hok : r.ok = true) (hbody : r.body ≠ "")
    (hparse : b.JSON_parse r.body = .ok result)
    (hfield : result.get "segmented_geojson" = some segmented_geojson)
    (hmsg : ∀ json asString, result.get "message" ≠ some (.object json asString true)) :
    (segmentClick b c).2
      = some (.segment fc (b.parseFloat c.gridAreaInput) (b.parseFloat c.bufferKmInput)) ∧
    (∀ c2 : Ctrl,
      (segmentResponse b (.resolved r) c2).segmentedGeoJson = segmented_geojson ∧
      (segmentResponse b (.resolved r) c2).currentAoiGeoJson = c2.currentAoiGeoJson ∧
      (segmentResponse b (.resolved r) c2).isAoiClosed = c2.isAoiClosed ∧
      (segmentResponse b (.resolved r) c2).uiState = .segmented ∧
      ((segmentResponse b (.resolved r) c2).downloadLinkDiv ≠ "" ↔
        ((result.get "filename").getD .undefined).truthy = true) ∧
      (((result.get "filename").getD .undefined).truthy = true →
        (segmentResponse b (.resolved r) c2).downloadLinkDiv
          = "<a href=\"/download/" ++ ((result.get "filename").getD .undefined).toStr b
              ++ "\" download>Download " ++ ((result.get "filename").getD .undefined).toStr b
              ++ "</a>")) ∧
    (segmentResponse b (.resolved r) (segmentClick b c).1).currentAoiGeoJson
      = c.currentAoiGeoJson ∧
    (segmentResponse b (.resolved r) (segmentClick b c).1).isAoiClosed = c.isAoiClosed := by
  have hclick := segmentClick_accepts b c fc n hcur hclosed hn h4 hg hk
  have hbody2 : r.body ≠ [] := by simpa using hbody
  have hcore := segmentResponse_core b (.resolved r) (segmentClick b c).1
  refine ⟨by rw [hclick], ?_, ?_, ?_⟩
  · intro c2
    have hshow : ∃ msg, displayMessageValue b
        (if ((result.get "message").getD .undefined).truthy = true
          then (result.get "message").getD .undefined else .str "Segmentation complete.")
        "success" { c2 with segmentedGeoJson := segmented_geojson }
          = .done { c2 with segmentedGeoJson := segmented_geojson, messagesDiv := msg } := by
      cases hm : result.get "message" with
      | none => exact ⟨_, by simp [JsVal.truthy, displayMessageValue]; rfl⟩
      | some v =>
        cases v with
        | undefined => exact ⟨_, by simp [JsVal.truthy, displayMessageValue]; rfl⟩
        | null => exact ⟨_, by simp [JsVal.truthy, displayMessageValue]; rfl⟩
        | bool v =>
          cases v
          · exact ⟨_, by simp [JsVal.truthy, displayMessageValue]; rfl⟩
          · exact ⟨_, by simp [JsVal.truthy, displayMessageValue]; rfl⟩
        | num x =>
          by_cases hx : x.truthy = true
          · exact ⟨_, by simp [JsVal.truthy, displayMessageValue, hx]; rfl⟩
          · exact ⟨_, by simp [JsVal.truthy, displayMessageValue, hx]; rfl⟩
        | str s =>
          by_cases hs : s = []
          · exact ⟨_, by simp [JsVal.truthy, displayMessageValue, hs]; rfl⟩
          · exact ⟨_, by simp [JsVal.truthy, displayMessageValue, hs]; rfl⟩
        | object json asString over =>
          cases over with
          | true => exact absurd hm (hmsg json asString)
          | false => exact ⟨_, by simp [JsVal.truthy, displayMessageValue]; rfl⟩
    obtain ⟨msg, hshow⟩ := hshow
    by_cases hfn : ((result.get "filename").getD .undefined).truthy = true
    · simp [segmentResponse, segmentTry, hok, hbody2, hparse, hfield, hshow, hfn,
        Outcome.andThen, addOrUpdateGeoJsonLayer_eq, updateUIState, Outcome.ctrl]
      exact fun _ _ _ _ => closingTag_ne_nil
    · simp [segmentResponse, segmentTry, hok, hbody2, hparse, hfield, hshow, hfn,
        Outcome.andThen, addOrUpdateGeoJsonLayer_eq, updateUIState, Outcome.ctrl]
  · rw [hcore.1, hclick]
    simp [displayMessage, updateUIState_aoi]
  · rw [hcore.2.1, hclick]
    simp [displayMessage, updateUIState_closed]

/-- Witness of C12 (scenario C): the closed ring, grid area 20, buffer 0 and a result with
file name `grid.geojson` give the link to `/download/grid.geojson`. -/
theorem C12_segment_success_witness :
    (segmentResponse sampleBuiltins (.resolved gridResult)
      (segmentClick sampleBuiltins sampleFinishedClosed.ctrl).1).downloadLinkDiv
      = "<a href=\"/download/" ++ utf16 "grid.geojson" ++ "\" download>Download "
          ++ utf16 "grid.geojson" ++ "</a>" :=
  ((C12_segment_success sampleBuiltins sampleFinishedClosed.ctrl
    { features := [closedRing] } 4 gridResult
    (.obj [("segmented_geojson", .object "\x7b\x7d" "[object Object]" false),
           ("filename", .str "grid.geojson")])
    (.object "\x7b\x7d" "[object Object]" false)
    (by decide) (by decide) rfl (by decide)
    (by show (0 : ℚ) < 20; norm_num) (by show (0 : ℚ) ≤ 0; exact le_refl 0)
    (by decide) (by decide) rfl rfl
    (by intro json asString h; simp [Parsed.get, List.lookup] at h)).2.1
      (segmentClick sampleBuiltins sampleFinishedClosed.ctrl).1).2.2.2.2.2 (by decide)

/-! ## C13: a segment request that fails -/

/-- On a failing response the `try` block of the segment handler throws before it has
touched the state. -/
theorem segmentTry_fails (b : Builtins) (fr : FetchResult) (c : Ctrl)
    (hfail : RequestFails b fr) : ∃ message, segmentTry b fr c = .threw message c := by
  cases fr with
  | rejected m => exact ⟨m, rfl⟩
  | resolved r =>
    by_cases hok : r.ok = true
    swap
    · exact ⟨_, by simp [segmentTry, hok]; rfl⟩
    by_cases hb : r.body = []
    · exact ⟨_, by simp [segmentTry, hok, hb]; rfl⟩
    rcases hfail with h | h | ⟨m, h⟩
    · rw [h] at hok; exact absurd hok (by simp)
    · exact absurd h hb
    · exact ⟨m, by simp [segmentTry, hok, hb, h]⟩

/-- The `catch` block of the segment handler ends in `finished_closed` with the link
empty. -/
theorem segmentCatch_ui (b : Builtins) (m : JsString) (c : Ctrl) :
    (segmentCatch b m c).uiState = .finished_closed ∧
    (segmentCatch b m c).downloadLinkDiv = [] := by
  simp [segmentCatch, updateUIState_uiState, updateUIState_link]

/-- C13 fails as stated: the ring is finished and the segment click accepted, the ring is
dragged while the request is in flight, and the request fails with a 500 response; the
controller ends in `finished_closed` with no processed AOI and the closed flag false,
where before the click it held the ring with the flag set. -/
theorem C13_counterexample :
    sampleFinishedClosed.ctrl.currentAoiGeoJson = some { features := [closedRing] } ∧
    sampleFinishedClosed.ctrl.isAoiClosed = true ∧
    (step sampleBuiltins .segmentClick sampleFinishedClosed).inFlight
      = [.segment { features := [closedRing] } (.fin 20) (.fin 0)] ∧
    serverError.ok = false ∧
    (run sampleBuiltins editedSegmentFailureTrace sampleFinishedClosed).ctrl.uiState
      = .finished_closed ∧
    (run sampleBuiltins editedSegmentFailureTrace sampleFinishedClosed).ctrl.currentAoiGeoJson
      = none ∧
    (run sampleBuiltins editedSegmentFailureTrace sampleFinishedClosed).ctrl.isAoiClosed
      = false := by
  decide

/-- C13, amended: when the segment click is accepted, from any state (so also from
`segmented`), and the request fails, then, whatever state `c2` the response meets, the
controller ends in `finished_closed` with the segmentation result absent and the download
link empty, and with the processed AOI and the closed flag as the response found them;
when no event was handled between the click and the response, the processed AOI and the
closed flag are as they were before the click and the segment button is enabled. -/
theorem C13_segment_failure (b : Builtins) (c : Ctrl) (fc : FeatureCollection) (n : Nat)
    (fr : FetchResult)
    (hcur : c.currentAoiGeoJson = some fc) (hclosed : c.isAoiClosed = true)
    (hn : coordinatesLength fc = some n) (h4 : 4 ≤ n)
    (hg : (b.parseFloat c.gridAreaInput).Positive)
    (hk : (b.parseFloat c.bufferKmInput).NonNegative)
    (hfail : RequestFails b fr) :
    (segmentClick b c).2
      = some (.segment fc (b.parseFloat c.gridAreaInput) (b.parseFloat c.bufferKmInput)) ∧
    (∀ c2 : Ctrl,
      (segmentResponse b fr c2).uiState = .finished_closed ∧
      (segmentResponse b fr c2).segmentedGeoJson = .null ∧
      (segmentResponse b fr c2).downloadLinkDiv = "" ∧
      (segmentResponse b fr c2).currentAoiGeoJson = c2.currentAoiGeoJson ∧
      (segmentResponse b fr c2).isAoiClosed = c2.isAoiClosed) ∧
    (segmentResponse b fr (segmentClick b c).1).currentAoiGeoJson = c.currentAoiGeoJson ∧
    (segmentResponse b fr (segmentClick b c).1).isAoiClosed = c.isAoiClosed ∧
    (segmentResponse b fr (segmentClick b c).1).segmentBtnDisabled = false := by
  have hclick := segmentClick_accepts b c fc n hcur hclosed hn h4 hg hk
  have hcore := segmentResponse_core b fr (segmentClick b c).1
  refine ⟨by rw [hclick], ?_, ?_, ?_, ?_⟩
  · intro c2
    obtain ⟨m, h⟩ := segmentTry_fails b fr c2 hfail
    have hc := segmentCatch_core b m c2
    have hu := segmentCatch_ui b m c2
    unfold segmentResponse
    rw [h]
    exact ⟨hu.1, hc.2.1, by simpa using hu.2, hc.1, hc.2.2.1⟩
  · rw [hcore.1, hclick]
    simp [displayMessage, updateUIState_aoi]
  · rw [hcore.2.1, hclick]
    simp [displayMessage, updateUIState_closed]
  · rw [hclick]
    obtain ⟨m, h⟩ := segmentTry_fails b fr
      (displayMessage "Segmenting AoI..." "info" (updateUIState b .segmenting c).ctrl) hfail
    have h4n : ¬ n < 4 := by omega
    unfold segmentResponse
    rw [h]
    simp [segmentCatch, displayMessage, updateUIState, Outcome.ctrl, hcur, hclosed, hn, h4n]

/-- Witness of C13: a 500 response to a segment request issued from `segmented` leads back
to `finished_closed` with the segment button enabled. -/
theorem C13_segment_failure_witness :
    sampleSegmented.ctrl.uiState = .segmented ∧
    (segmentResponse sampleBuiltins (.resolved serverError)
      (segmentClick sampleBuiltins sampleSegmented.ctrl).1).segmentBtnDisabled = false :=
  ⟨by decide,
    (C13_segment_failure sampleBuiltins sampleSegmented.ctrl { features := [closedRing] } 4
      (.resolved serverError) (by decide) (by decide) rfl (by decide)
      (by show (0 : ℚ) < 20; norm_num) (by show (0 : ℚ) ≤ 0; exact le_refl 0)
      (Or.inl (by decide))).2.2.2.2⟩

/-! ## C14: a close-loop request that fails -/

/-- On a failing response the `try` block of the close-loop handler throws before it has
touched the state. -/
theorem closeLoopTry_fails (b : Builtins) (aoi : FeatureCollection) (fr : FetchResult)
    (c : Ctrl) (hfail : RequestFails b fr) :
    ∃ message, closeLoopTry b aoi fr c = .threw message c := by
  cases fr with
  | rejected m => exact ⟨m, rfl⟩
  | resolved r =>
    by_cases hok : r.ok = true
    swap
    · exact ⟨_, by simp [closeLoopTry, hok]; rfl⟩
    by_cases hb : r.body = []
    · exact ⟨_, by simp [closeLoopTry, hok, hb]; rfl⟩
    rcases hfail with h | h | ⟨m, h⟩
    · rw [h] at hok; exact absurd hok (by simp)
    · exact absurd h hb
    · exact ⟨m, by simp [closeLoopTry, hok, hb, h]⟩

/-- C14 fails as stated: the open line is finished and the close-loop click sends its
request, the line is dragged while the request is in flight, and the request fails with a
500 response; the controller ends in `finished_open` with no processed AOI, where before
the click it held the line, and with the close-loop button disabled. -/
theorem C14_counterexample :
    sampleFinished.ctrl.currentAoiGeoJson = some { features := [openLine] } ∧
    (step sampleBuiltins .closeLoopClick sampleFinished).inFlight.length = 1 ∧
    serverError.ok = false ∧
    (run sampleBuiltins editedCloseLoopFailureTrace sampleFinished).ctrl.uiState
      = .finished_open ∧
    (run sampleBuiltins editedCloseLoopFailureTrace sampleFinished).ctrl.currentAoiGeoJson
      = none ∧
    (run sampleBuiltins editedCloseLoopFailureTrace sampleFinished).ctrl.closeLoopBtnDisabled
      = true := by
  decide

/-- C14, amended: when the close-loop click sends a request (the processed AOI has at
least 3 coordinates, first and last positions differ) and the request fails, then,
whatever state `c2` the response meets, the controller ends in `finished_open` with the
processed AOI and the closed flag as the response found them (the appended coordinate
lives in the copy only); when no event was handled between the click and the response,
the processed AOI and the closed flag are as they were before the click and the
close-loop button is enabled. -/
theorem C14_close_loop_failure (b : Builtins) (c : Ctrl) (f : Feature) (rest : List Feature)
    (first last : Coord) (fr : FetchResult)
    (hcur : c.currentAoiGeoJson = some { features := f :: rest })
    (hn : 3 ≤ f.geometry.coordinates.length)
    (hfirst : f.geometry.coordinates.head? = some first)
    (hlast : f.geometry.coordinates.getLast? = some last)
    (hne : first ≠ last)
    (hfail : RequestFails b fr) :
    ∃ aoiToClose, (closeLoopClick b c).2 = some (.closeLoop aoiToClose) ∧
      (∀ c2 : Ctrl,
        (closeLoopResponse b aoiToClose fr c2).uiState = .finished_open ∧
        (closeLoopResponse b aoiToClose fr c2).currentAoiGeoJson = c2.currentAoiGeoJson ∧
        (closeLoopResponse b aoiToClose fr c2).isAoiClosed = c2.isAoiClosed) ∧
      (closeLoopResponse b aoiToClose fr (closeLoopClick b c).1).currentAoiGeoJson
        = c.currentAoiGeoJson ∧
      (closeLoopResponse b aoiToClose fr (closeLoopClick b c).1).isAoiClosed
        = c.isAoiClosed ∧
      (closeLoopResponse b aoiToClose fr (closeLoopClick b c).1).closeLoopBtnDisabled
        = false := by
  rw [closeLoopClick_open b c f rest first last hcur hn hfirst hlast hne]
  refine ⟨_, rfl, ?_, ?_⟩
  · intro c2
    obtain ⟨m, h⟩ := closeLoopTry_fails b
      { features := { f with geometry := { f.geometry with
          coordinates := f.geometry.coordinates ++ [first] } } :: rest } fr c2 hfail
    have hc := closeLoopCatch_core b m c2
    unfold closeLoopResponse
    rw [h]
    exact ⟨by simp [closeLoopCatch, updateUIState_uiState], hc.1, hc.2.2.1⟩
  · obtain ⟨m, h⟩ := closeLoopTry_fails b
      { features := { f with geometry := { f.geometry with
          coordinates := f.geometry.coordinates ++ [first] } } :: rest } fr
      (displayMessage "Closing loop and reprocessing..." "info"
        (updateUIState b .processing c).ctrl) hfail
    unfold closeLoopResponse
    rw [h]
    simp [closeLoopCatch, displayMessage, updateUIState, Outcome.ctrl, hcur, coordinatesLength,
      hn]

/-- Witness of C14: a 500 response to the close-loop request for the open line leads back
to `finished_open` with the three-point AOI kept. -/
theorem C14_close_loop_failure_witness :
    ∃ aoiToClose,
      (closeLoopClick sampleBuiltins sampleFinished.ctrl).2 = some (.closeLoop aoiToClose) ∧
      (closeLoopResponse sampleBuiltins aoiToClose (.resolved serverError)
        (closeLoopClick sampleBuiltins sampleFinished.ctrl).1).currentAoiGeoJson
        = sampleFinished.ctrl.currentAoiGeoJson :=
  (C14_close_loop_failure sampleBuiltins sampleFinished.ctrl openLine []
    { lon := 0, lat := 0 } { lon := 1, lat := 1 } (.resolved serverError)
    (by decide) (by decide) rfl rfl (by decide) (Or.inl (by decide))).imp
    (fun _ h => ⟨h.1, h.2.2.1⟩)

/-! ## C15: mode change and selection change -/

/-- C15 fails as stated: while the finish request for the open line is in flight, with the
line on the surface and no processed AOI, a change to mode `draw_line_string` leaves the
controller in `processing` with the finish button disabled. -/
theorem C15_counterexample :
    sampleProcessing.ctrl.draw = some [openLine] ∧
    sampleProcessing.ctrl.currentAoiGeoJson = none ∧
    (onDrawModechange sampleBuiltins "draw_line_string" sampleProcessing.ctrl).uiState
      = .processing ∧
    (onDrawModechange sampleBuiltins "draw_line_string" sampleProcessing.ctrl).finishBtnDisabled
      = true := by
  decide

/-- C15, amended: with `store` the features on the surface,
* a mode change with no processed AOI ends in `draw_complete` with the finish button
  enabled when a feature is present and the mode is `simple_select` or `direct_select`,
  and ends in `initial` when no feature is present and the mode is `draw_line_string`;
  with any other mode it only records whether a feature exists;
* a selection change with no processed AOI ends in `draw_complete` with the finish button
  enabled when it reports a feature or meets one on the surface, and otherwise only
  records that no feature exists;
* with a processed AOI present both events leave the UI state and the buttons alone. -/
theorem C15_mode_and_selection_change (b : Builtins) (c : Ctrl) (store : List Feature)
    (mode : String) (features : List Feature) (hdraw : c.draw = some store) :
    (c.currentAoiGeoJson = none → store ≠ [] →
      (mode = "simple_select" ∨ mode = "direct_select") →
      (onDrawModechange b mode c).uiState = .draw_complete ∧
      (onDrawModechange b mode c).finishBtnDisabled = false) ∧
    (c.currentAoiGeoJson = none → store = [] → mode = "draw_line_string" →
      (onDrawModechange b mode c).uiState = .initial) ∧
    (store ≠ [] → mode ≠ "simple_select" → mode ≠ "direct_select" →
      onDrawModechange b mode c = { c with featureExistsOnMap := true }) ∧
    (store = [] → mode ≠ "draw_line_string" →
      onDrawModechange b mode c = { c with featureExistsOnMap := false }) ∧
    (c.currentAoiGeoJson = none → (features ≠ [] ∨ store ≠ []) →
      (onDrawSelectionchange b features c).uiState = .draw_complete ∧
      (onDrawSelectionchange b features c).finishBtnDisabled = false) ∧
    (features = [] → store = [] →
      onDrawSelectionchange b features c = { c with featureExistsOnMap := false }) ∧
    (c.currentAoiGeoJson ≠ none →
      onDrawModechange b mode c = { c with featureExistsOnMap := !store.isEmpty } ∧
      onDrawSelectionchange b features c
        = { c with featureExistsOnMap := !features.isEmpty || !store.isEmpty }) := by
  refine ⟨?_, ?_, ?_, ?_, ?_, ?_, ?_⟩
  · intro hnone hs hm
    have hlen : 0 < store.length := List.length_pos.mpr hs
    rcases hm with hm | hm <;>
      simp [onDrawModechange, hdraw, hnone, hlen, hm, updateUIState, Outcome.ctrl,
        displayMessage]
  · intro hnone hs hm
    simp [onDrawModechange, hdraw, hnone, hs, hm, updateUIState, Outcome.ctrl,
      clearMapLayersAndData_eq]
  · intro hs hm1 hm2
    have hlen : 0 < store.length := List.length_pos.mpr hs
    simp [onDrawModechange, hdraw, hlen, hm1, hm2]
  · intro hs hm
    simp [onDrawModechange, hdraw, hs, hm]
  · intro hnone h
    by_cases hf : 0 < features.length
    · simp [onDrawSelectionchange, hf, hnone, updateUIState, Outcome.ctrl, displayMessage]
    · have hs : 0 < store.length := by
        rcases h with h | h
        · exact absurd (List.length_pos.mpr h) hf
        · exact List.length_pos.mpr h
      simp [onDrawSelectionchange, hf, hdraw, hs, hnone, updateUIState, Outcome.ctrl,
        displayMessage]
  · intro hf hs
    simp [onDrawSelectionchange, hf, hs, hdraw]
  · intro hsome
    obtain ⟨fc, hfc⟩ := Option.ne_none_iff_exists'.mp hsome
    constructor
    · cases store <;> simp [onDrawModechange, hdraw, hfc]
    · cases features <;> cases store <;> simp [onDrawSelectionchange, hdraw, hfc]

/-- Witness of C15: after the line is drawn, a change to `simple_select` ends in
`draw_complete`. -/
theorem C15_mode_and_selection_change_witness :
    (onDrawModechange sampleBuiltins "simple_select" sampleProcessing.ctrl).uiState
      = .draw_complete :=
  ((C15_mode_and_selection_change sampleBuiltins sampleProcessing.ctrl [openLine]
    "simple_select" [] (by decide)).1 (by decide) (by decide) (Or.inl rfl)).1

/-! ## C16, C17, C18: which buttons `updateUIState` enables -/

/-- C16 fails as stated: `updateUIState('segmented')` enables the segment button, and the
state is not `finished_closed`. -/
theorem C16_counterexample :
    ¬ ∀ (st : UIState) (c : Ctrl),
        (updateUIState sampleBuiltins st c).ctrl.segmentBtnDisabled = false →
          st = .finished_closed ∧
          ∃ fc n, (updateUIState sampleBuiltins st c).ctrl.currentAoiGeoJson = some fc ∧
            coordinatesLength fc = some n ∧ 4 ≤ n := by
  intro h
  have h1 := (h .segmented samplePage (by decide)).1
  exact absurd h1 (by decide)

/-- C16, amended: after `updateUIState(st)` on any controller data, the segment button is
enabled only if `st` is `segmented`, or `st` is `finished_closed` and the processed AOI
does not have fewer than 4 coordinates. -/
theorem C16_segment_enabled_only_if (b : Builtins) (st : UIState) (c : Ctrl)
    (h : (updateUIState b st c).ctrl.segmentBtnDisabled = false) :
    st = .segmented ∨
    (st = .finished_closed ∧
      ∀ fc n, (updateUIState b st c).ctrl.currentAoiGeoJson = some fc →
        coordinatesLength fc = some n → 4 ≤ n) := by
  cases st
  case finished_closed =>
    right
    refine ⟨rfl, ?_⟩
    intro fc n hfc hn
    rw [updateUIState_aoi] at hfc
    simp at hfc
    by_contra hlt
    have hlt' : n < 4 := by omega
    simp [updateUIState, Outcome.ctrl, displayMessage, hfc, hn, hlt'] at h
  case segmented => exact Or.inl rfl
  case finished_open =>
    exfalso
    cases hc : c.currentAoiGeoJson with
    | none => simp [updateUIState, Outcome.ctrl, displayMessage, hc] at h
    | some fc =>
      cases hn : coordinatesLength fc <;>
        simp [updateUIState, Outcome.ctrl, displayMessage, hc, hn] at h
  all_goals
    exfalso
    simp [updateUIState, Outcome.ctrl, displayMessage, clearMapLayersAndData_eq] at h

/-- Witness of C16: in `finished_closed` with the four-point ring the button is enabled,
and the ring has 4 coordinates. -/
theorem C16_segment_enabled_only_if_witness :
    UIState.finished_closed = .segmented ∨
    (UIState.finished_closed = .finished_closed ∧
      ∀ fc n, (updateUIState sampleBuiltins .finished_closed
          { samplePage with currentAoiGeoJson := some { features := [closedRing] } }
        ).ctrl.currentAoiGeoJson = some fc →
        coordinatesLength fc = some n → 4 ≤ n) :=
  C16_segment_enabled_only_if sampleBuiltins .finished_closed
    { samplePage with currentAoiGeoJson := some { features := [closedRing] } } (by decide)

/-- C17: after `updateUIState(st)` on any controller data, the close-loop button is
enabled exactly when `st` is `finished_open` and the processed AOI is present with at
least 3 coordinates; a processed AOI with 2 coordinates in `finished_open` has it
disabled. -/
theorem C17_close_loop_enabled_iff (b : Builtins) (st : UIState) (c : Ctrl) :
    ((updateUIState b st c).ctrl.closeLoopBtnDisabled = false ↔
      st = .finished_open ∧
      ∃ fc n, (updateUIState b st c).ctrl.currentAoiGeoJson = some fc ∧
        coordinatesLength fc = some n ∧ 3 ≤ n) ∧
    (∀ fc, c.currentAoiGeoJson = some fc → coordinatesLength fc = some 2 →
      (updateUIState b .finished_open c).ctrl.closeLoopBtnDisabled = true) := by
  constructor
  · cases st
    case finished_open =>
      cases hc : c.currentAoiGeoJson with
      | none => simp [updateUIState, Outcome.ctrl, displayMessage, hc]
      | some fc =>
        cases hn : coordinatesLength fc <;>
          simp [updateUIState, Outcome.ctrl, displayMessage, hc, hn]
    case finished_closed =>
      cases hc : c.currentAoiGeoJson with
      | none => simp [updateUIState, Outcome.ctrl, displayMessage, hc]
      | some fc =>
        cases hn : coordinatesLength fc with
        | none => simp [updateUIState, Outcome.ctrl, displayMessage, hc, hn]
        | some n =>
          by_cases h4 : n < 4 <;>
            simp [updateUIState, Outcome.ctrl, displayMessage, hc, hn, h4]
    all_goals simp [updateUIState, Outcome.ctrl, displayMessage, clearMapLayersAndData_eq]
  · intro fc hc hn
    simp [updateUIState, Outcome.ctrl, displayMessage, hc, hn]

/-- C18 fails as stated: `updateUIState('processing')` disables the restart button while
the sketch is on the surface. -/
theorem C18_counterexample :
    ¬ ∀ (st : UIState) (c : Ctrl),
        ((updateUIState sampleBuiltins st c).ctrl.featureExistsOnMap = true ∨
          (updateUIState sampleBuiltins st c).ctrl.currentAoiGeoJson.isSome = true) →
          (updateUIState sampleBuiltins st c).ctrl.restartBtnDisabled = false := by
  intro h
  have h1 := h .processing
    { samplePage with draw := some [openLine], featureExistsOnMap := true } (Or.inl (by decide))
  exact absurd h1 (by decide)

/-- C18, amended: after `updateUIState(st)` with `st` other than `processing` and
`segmenting`, the restart button is enabled whenever, on the data as they stand after the
update, the feature flag is set, the draw store holds a feature or a processed AOI
exists. -/
theorem C18_restart_enabled (b : Builtins) (st : UIState) (c : Ctrl)
    (hp : st ≠ .processing) (hs : st ≠ .segmenting)
    (hdata : (updateUIState b st c).ctrl.featureExistsOnMap = true ∨
      (∃ f rest, (updateUIState b st c).ctrl.draw = some (f :: rest)) ∨
      (updateUIState b st c).ctrl.currentAoiGeoJson.isSome = true) :
    (updateUIState b st c).ctrl.restartBtnDisabled = false := by
  cases st
  case processing => exact absurd rfl hp
  case segmenting => exact absurd rfl hs
  case initial =>
    exfalso
    rcases hdata with h | ⟨f, rest, h⟩ | h
    · simp [updateUIState, Outcome.ctrl, clearMapLayersAndData_eq] at h
    · simp [updateUIState, Outcome.ctrl, clearMapLayersAndData_eq] at h
    · simp [updateUIState, Outcome.ctrl, clearMapLayersAndData_eq] at h
  case finished_open =>
    cases hc : c.currentAoiGeoJson with
    | none => simp [updateUIState, Outcome.ctrl, displayMessage, hc]
    | some fc =>
      cases hn : coordinatesLength fc <;>
        simp [updateUIState, Outcome.ctrl, displayMessage, hc, hn]
  case finished_closed =>
    cases hc : c.currentAoiGeoJson with
    | none => simp [updateUIState, Outcome.ctrl, displayMessage, hc]
    | some fc =>
      cases hn : coordinatesLength fc with
      | none => simp [updateUIState, Outcome.ctrl, displayMessage, hc, hn]
      | some n =>
        by_cases h4 : n < 4 <;> simp [updateUIState, Outcome.ctrl, displayMessage, hc, hn, h4]
  all_goals simp [updateUIState, Outcome.ctrl, displayMessage]

/-- Witness of C18: in `draw_complete` with the line on the surface restart is enabled. -/
theorem C18_restart_enabled_witness :
    (updateUIState sampleBuiltins .draw_complete
      { samplePage with draw := some [openLine], featureExistsOnMap := true }
      ).ctrl.restartBtnDisabled = false :=
  C18_restart_enabled sampleBuiltins .draw_complete
    { samplePage with draw := some [openLine], featureExistsOnMap := true }
    (by decide) (by decide) (Or.inl (by decide))

/-! ## C19: the error message for a non-2xx response -/

/-- The empty string contains no `application/json`. -/
theorem includes_empty : includes [] "application/json" = false := by decide

/-- A snippet has at most 150 code units. -/
theorem take150_length (body : JsString) : (body.take 150).length ≤ 150 :=
  List.length_take_le 150 body

/-- A body of at most 150 code units is its own snippet. -/
theorem take150_short (body : JsString) (h : body.length ≤ 150) : body.take 150 = body :=
  List.take_of_length_le h

/-- The message is the status line alone, the `error` field of the parsed body, or the
status line followed by a snippet of the body. -/
theorem finishErrorMsg_forms (b : Builtins) (r : Response) :
    finishErrorMsg b r
      = "Server error: " ++ utf16 (toString r.status) ++ " " ++ r.statusText ∨
    (∃ errorData, b.JSON_parse r.body = .ok errorData ∧
      finishErrorMsg b r
        = "Server error: " ++ ((errorData.get "error").getD .undefined).toStr b) ∨
    finishErrorMsg b r =
      "Server error: " ++ utf16 (toString r.status) ++ " " ++ r.statusText
        ++ " - Response: " ++ r.body.take 150 ++ "..." ∨
    finishErrorMsg b r =
      "Server error: " ++ utf16 (toString r.status) ++ " " ++ r.statusText
        ++ " - Raw Response: " ++ r.body.take 150 ++ "..." := by
  by_cases hjson : (match r.contentType with
      | none => false
      | some contentType =>
        !contentType.isEmpty && includes contentType "application/json") = true
  · cases hparse : b.JSON_parse r.body with
    | error m =>
      by_cases hbody : r.body = []
      · left
        have hparse0 : b.JSON_parse [] = .error m := by rw [← hbody]; exact hparse
        simp [finishErrorMsg, hjson, hbody, hparse0]
      · right; right; right
        simp [finishErrorMsg, hjson, hparse, hbody]
    | ok errorData =>
      by_cases herr : (errorData.truthy && ((errorData.get "error").getD .undefined).truthy) = true
      · right; left
        exact ⟨errorData, rfl, by simp only [finishErrorMsg, hjson, hparse, herr]; simp⟩
      · left; simp only [finishErrorMsg, hjson, hparse, herr]; simp
  · by_cases hbody : r.body = []
    · left; simp [finishErrorMsg, hjson, hbody]
    · right; right; left
      simp [finishErrorMsg, hjson, hbody]

set_option maxRecDepth 8192 in
/-- C19 fails as stated: a 400 response with content type `application/json` whose body
is an object with an `error` field of 151 code units; the message is `Server error: `
followed by the whole field, so 151 consecutive code units of the body are shown. -/
theorem C19_counterexample :
    longErrorResponse.ok = false ∧
    sampleBuiltins.JSON_parse longErrorResponse.body = .ok (.obj [("error", .str longError)]) ∧
    finishErrorMsg sampleBuiltins longErrorResponse = "Server error: " ++ longError ∧
    (∃ before after, longErrorResponse.body = before ++ longError ++ after) ∧
    longError.length = 151 :=
  ⟨by decide, rfl, rfl, ⟨"\x7b\"error\":\"", "\"\x7d", rfl⟩, rfl⟩

/-- C19, amended: for every response, so for every non-2xx one, the three handlers build
the same message from status, status text, content type and body.  When the content type
contains `application/json` and the body parses to an object with a truthy `error` field,
the message is `Server error: ` followed by that field, whole, whatever its length.  When
the content type is absent or does not contain `application/json` and the body is
non-empty, the message is `Server error: <status> <statusText> - Response: ` followed by
the first 150 UTF-16 code units of the body and `...`; when the content type contains
`application/json` and a non-empty body does not parse, the same with
` - Raw Response: `.  In every case the message is the status line alone, the parsed
`error` field, or the status line with such a snippet; the snippet has at most 150 code
units and is the whole body when the body is that short. -/
theorem C19_error_message (b : Builtins) (r : Response) :
    closeLoopErrorMsg b r = finishErrorMsg b r ∧
    segmentErrorMsg b r = finishErrorMsg b r ∧
    (∀ contentType fields error,
      r.contentType = some contentType → includes contentType "application/json" = true →
      b.JSON_parse r.body = .ok (.obj fields) → fields.lookup "error" = some error →
      error.truthy = true → finishErrorMsg b r = "Server error: " ++ error.toStr b) ∧
    ((r.contentType = none ∨
        ∃ contentType, r.contentType = some contentType ∧
          includes contentType "application/json" = false) →
      r.body ≠ "" →
      finishErrorMsg b r =
        "Server error: " ++ utf16 (toString r.status) ++ " " ++ r.statusText
          ++ " - Response: " ++ r.body.take 150 ++ "...") ∧
    (∀ contentType message,
      r.contentType = some contentType → includes contentType "application/json" = true →
      b.JSON_parse r.body = .error message → r.body ≠ "" →
      finishErrorMsg b r =
        "Server error: " ++ utf16 (toString r.status) ++ " " ++ r.statusText
          ++ " - Raw Response: " ++ r.body.take 150 ++ "...") ∧
    (finishErrorMsg b r
        = "Server error: " ++ utf16 (toString r.status) ++ " " ++ r.statusText ∨
      (∃ errorData, b.JSON_parse r.body = .ok errorData ∧
        finishErrorMsg b r
          = "Server error: " ++ ((errorData.get "error").getD .undefined).toStr b) ∨
      finishErrorMsg b r =
        "Server error: " ++ utf16 (toString r.status) ++ " " ++ r.statusText
          ++ " - Response: " ++ r.body.take 150 ++ "..." ∨
      finishErrorMsg b r =
        "Server error: " ++ utf16 (toString r.status) ++ " " ++ r.statusText
          ++ " - Raw Response: " ++ r.body.take 150 ++ "...") ∧
    (r.body.take 150).length ≤ 150 ∧
    (r.body.length ≤ 150 → r.body.take 150 = r.body) := by
  refine ⟨rfl, rfl, ?_, ?_, ?_, finishErrorMsg_forms b r, take150_length r.body,
    take150_short r.body⟩
  · intro ct fields error hct hinc hparse hlook htruthy
    have hct0 : ct ≠ [] := by
      intro h0; rw [h0, includes_empty] at hinc; exact absurd hinc (by simp)
    simp [finishErrorMsg, hct, hinc, hct0, hparse, Parsed.get, hlook, Parsed.truthy, htruthy]
  · intro hct hbody
    have hbody2 : r.body ≠ [] := by simpa using hbody
    rcases hct with hct | ⟨ct, hct, hinc⟩
    · simp [finishErrorMsg, hct, hbody2]
    · simp [finishErrorMsg, hct, hinc, hbody2]
  · intro ct message hct hinc hparse hbody
    have hbody2 : r.body ≠ [] := by simpa using hbody
    have hct0 : ct ≠ [] := by
      intro h0; rw [h0, includes_empty] at hinc; exact absurd hinc (by simp)
    simp [finishErrorMsg, hct, hinc, hct0, hparse, hbody2]

/-- Witness of C19: the 500 response with an HTML body gives the status line followed by
the body, which is shorter than 150 code units, and `...`. -/
theorem C19_error_message_witness :
    finishErrorMsg sampleBuiltins serverError
      = "Server error: " ++ utf16 (toString serverError.status) ++ " "
          ++ serverError.statusText ++ " - Response: " ++ serverError.body.take 150 ++ "..." :=
  (C19_error_message sampleBuiltins serverError).2.2.2.1
    (Or.inr ⟨"text/html", rfl, by decide⟩) (by decide)

end AoiSegmentation
